import Mathlib

/-!
# SerialPortLib: a shallow embedding of `SerialPortLib.cpp`

The six file-scope globals of the library and the live reader thread are one
`State`.  Every call into the operating system (ACE / Win32) takes its outcome
from an explicit environment record and leaves an `Event` in the trace, and so
does every invocation of a user callback.  Pointers are numbers: `Option Nat`
for handles and function pointers (`none` is `ACE_INVALID_HANDLE`, `NULL`,
`nullptr`), `Nat` for the `void*` user data (`0` is `nullptr`).

One iteration of the `while (g_isRunning.load())` loop of `ReadThreadFunc` is
atomic with respect to the calls of the API thread.
-/

namespace SerialPortLib

/-! ## Constants -/

/-- `const size_t READ_BUFFER_SIZE = 4096;` -/
def READ_BUFFER_SIZE : Nat := 4096

/-- `const DWORD STATUS_LOG_INTERVAL_MS = 3000;` -/
def STATUS_LOG_INTERVAL_MS : Nat := 3000

/-- `const DWORD SILENCE_THRESHOLD_MS = 1500;` -/
def SILENCE_THRESHOLD_MS : Nat := 1500

/-- Win32 `MS_CTS_ON` (winbase.h). -/
def MS_CTS_ON : Nat := 0x0010

/-- Win32 `MS_DSR_ON` (winbase.h). -/
def MS_DSR_ON : Nat := 0x0020

/-- Subtraction of two `ULONGLONG` values: the result wraps modulo `2^64`. -/
def subU64 (a b : Nat) : Nat := (a % 2 ^ 64 + (2 ^ 64 - b % 2 ^ 64)) % 2 ^ 64

/-- The conversion `static_cast<int>(x)` of an `ssize_t` to a 32-bit `int`. -/
def toInt32 (x : Int) : Int := (x + 2 ^ 31) % 2 ^ 32 - 2 ^ 31

/-! ## Data model -/

/-- The fields of the `DCB` that `set_serial_attributes_internal` writes. -/
structure DCB where
  BaudRate : Nat
  ByteSize : Nat
  StopBits : Nat
  Parity : Nat
  fOutxCtsFlow : Bool
  fRtsControl : Nat
  fOutxDsrFlow : Bool
  fDtrControl : Nat
  fOutX : Bool
  fInX : Bool
  fBinary : Bool
  fAbortOnError : Bool
  deriving DecidableEq, Repr

/-- The Win32 `COMMTIMEOUTS` record. -/
structure COMMTIMEOUTS where
  ReadIntervalTimeout : Nat
  ReadTotalTimeoutMultiplier : Nat
  ReadTotalTimeoutConstant : Nat
  WriteTotalTimeoutMultiplier : Nat
  WriteTotalTimeoutConstant : Nat
  deriving DecidableEq, Repr

/-- What the library does to the outside world, in program order. -/
inductive Event where
  | transportOpen (portName : Option String) (result : Option Nat)
  | transportClose (handle : Option Nat)
  | transportRead (handle : Option Nat)
  | transportWrite (handle : Option Nat) (data : List Nat) (length : Nat)
  | getCommState (handle : Option Nat)
  | setCommState (handle : Option Nat) (dcb : DCB)
  | setCommTimeouts (handle : Option Nat) (timeouts : COMMTIMEOUTS)
  | escapeCommFunction (handle : Option Nat) (func : Nat)
  | getCommModemStatus (handle : Option Nat)
  | clearCommError (handle : Option Nat)
  | beginThread (result : Option Nat)
  | joinThread (thread : Nat)
  | dataSink (callback : Nat) (userData : Nat) (buffer : List Nat) (length : Nat)
  | errorSink (callback : Nat) (userData : Nat) (code : Int) (message : String)
  deriving DecidableEq, Repr

/-- The local `struct StatusSnapshot` of `ReadThreadFunc`, with its default
member initialisers. -/
structure StatusSnapshot where
  valid : Bool := false
  modemStatus : Nat := 0
  errors : Nat := 0
  cbInQue : Nat := 0
  cbOutQue : Nat := 0
  fXoffHold : Bool := false
  fXoffSent : Bool := false
  fDtrControl : Nat := 0
  fRtsControl : Nat := 0
  fOutX : Nat := 0
  fInX : Nat := 0
  deriving DecidableEq, Repr

/-- The locals of `ReadThreadFunc` that live across loop iterations. -/
structure ReaderLocals where
  last_rx_time : Nat
  last_status_time : Nat
  last : StatusSnapshot
  deriving DecidableEq, Repr

/-- The file-scope state of the library, and the locals of the reader thread
while that thread is alive (`none`: no reader thread exists). -/
structure State where
  g_serialHandle : Option Nat := none
  g_threadHandle : Option Nat := none
  g_isRunning : Bool := false
  g_dataCallback : Option Nat := none
  g_errorCallback : Option Nat := none
  g_userData : Nat := 0
  reader : Option ReaderLocals := none
  deriving DecidableEq, Repr

/-- The state at load time: the initialisers of the six globals. -/
def State.initial : State := {}

/-- `if (cb) cb(userData, code, message);` -/
def callError (cb : Option Nat) (userData : Nat) (code : Int) (message : String) :
    List Event :=
  match cb with
  | some f => [Event.errorSink f userData code message]
  | none => []

/-! ## `set_serial_attributes_internal` -/

/-- Outcomes of the three fallible Win32 calls of the configuration step. -/
structure ConfigEnv where
  getCommState_ok : Bool
  getCommState_error : Int
  setCommState_ok : Bool
  setCommState_error : Int
  setCommTimeouts_ok : Bool
  setCommTimeouts_error : Int
  deriving DecidableEq, Repr

/-- The `DCB` handed to `SetCommState`. -/
def configuredDCB (baudRate : Nat) : DCB :=
  { BaudRate := baudRate, ByteSize := 8, StopBits := 0, Parity := 0,
    fOutxCtsFlow := false, fRtsControl := 1, fOutxDsrFlow := false, fDtrControl := 1,
    fOutX := true, fInX := true, fBinary := true, fAbortOnError := false }

/-- The `COMMTIMEOUTS` handed to `SetCommTimeouts`. -/
def configuredTimeouts : COMMTIMEOUTS :=
  { ReadIntervalTimeout := 50, ReadTotalTimeoutMultiplier := 0,
    ReadTotalTimeoutConstant := 100, WriteTotalTimeoutMultiplier := 0,
    WriteTotalTimeoutConstant := 500 }

/-- `static int set_serial_attributes_internal(ACE_HANDLE handle, unsigned long baudRate)`:
the return value and the trace. -/
def set_serial_attributes_internal (s : State) (handle : Option Nat) (baudRate : Nat)
    (env : ConfigEnv) : Int × List Event :=
  if !env.getCommState_ok then
    (-1, [Event.getCommState handle]
          ++ callError s.g_errorCallback s.g_userData env.getCommState_error
               "GetCommState failed")
  else if !env.setCommState_ok then
    (-1, [Event.getCommState handle, Event.setCommState handle (configuredDCB baudRate)]
          ++ callError s.g_errorCallback s.g_userData env.setCommState_error
               "SetCommState failed")
  else if !env.setCommTimeouts_ok then
    (-1, [Event.getCommState handle, Event.setCommState handle (configuredDCB baudRate),
          Event.setCommTimeouts handle configuredTimeouts]
          ++ callError s.g_errorCallback s.g_userData env.setCommTimeouts_error
               "SetCommTimeouts failed")
  else
    (0, [Event.getCommState handle, Event.setCommState handle (configuredDCB baudRate),
         Event.setCommTimeouts handle configuredTimeouts,
         Event.escapeCommFunction handle 5, Event.escapeCommFunction handle 3])

/-! ## `ReadThreadFunc` -/

/-- What the three status calls of an idle tick return. -/
structure CommSample where
  modem_ok : Bool
  modemStatus : Nat
  com_ok : Bool
  errors : Nat
  cbInQue : Nat
  cbOutQue : Nat
  fXoffHold : Nat
  fXoffSent : Nat
  dcb_ok : Bool
  fDtrControl : Nat
  fRtsControl : Nat
  fOutX : Nat
  fInX : Nat
  deriving DecidableEq, Repr

/-- What the environment supplies to one loop iteration: the result of
`ACE_OS::read`, the buffer it filled, `ACE_OS::last_error()`, the value of the
one `GetTickCount64()` call of the iteration, whether the user's data callback
throws, and the status sample. -/
structure IterInput where
  bytes_read : Int
  read_buffer : List Nat
  last_error : Int
  tick : Nat
  callbackThrows : Bool
  sample : CommSample
  deriving DecidableEq, Repr

/-- The snapshot `cur` built from the three status calls. -/
def takeSnapshot (c : CommSample) : StatusSnapshot :=
  { valid := true
    modemStatus := if c.modem_ok then c.modemStatus else 0
    errors := if c.com_ok then c.errors else 0
    cbInQue := if c.com_ok then c.cbInQue else 0
    cbOutQue := if c.com_ok then c.cbOutQue else 0
    fXoffHold := if c.com_ok then c.fXoffHold != 0 else false
    fXoffSent := if c.com_ok then c.fXoffSent != 0 else false
    fDtrControl := if c.dcb_ok then c.fDtrControl else 0
    fRtsControl := if c.dcb_ok then c.fRtsControl else 0
    fOutX := if c.dcb_ok then c.fOutX else 0
    fInX := if c.dcb_ok then c.fInX else 0 }

/-- The local `bool changed`. -/
def changed (last cur : StatusSnapshot) : Bool :=
  !last.valid ||
  last.modemStatus != cur.modemStatus ||
  last.errors != cur.errors ||
  last.cbInQue != cur.cbInQue ||
  last.cbOutQue != cur.cbOutQue ||
  last.fXoffHold != cur.fXoffHold ||
  last.fXoffSent != cur.fXoffSent ||
  last.fDtrControl != cur.fDtrControl ||
  last.fRtsControl != cur.fRtsControl ||
  last.fOutX != cur.fOutX ||
  last.fInX != cur.fInX

/-- Upper-case hexadecimal, the `%lX` conversion. -/
def hexUpper (n : Nat) : String := String.mk ((Nat.toDigits 16 n).map Char.toUpper)

/-- The text that the `snprintf` format of the status branch produces. -/
def statusMessage (silence_ms : Nat) (cur : StatusSnapshot) : String :=
  "[STATUS] silence_ms=" ++ toString silence_ms
    ++ " CTS=" ++ toString (if cur.modemStatus &&& MS_CTS_ON != 0 then 1 else 0)
    ++ " DSR=" ++ toString (if cur.modemStatus &&& MS_DSR_ON != 0 then 1 else 0)
    ++ " XOFF_HOLD=" ++ toString (if cur.fXoffHold then 1 else 0)
    ++ " XOFF_SENT=" ++ toString (if cur.fXoffSent then 1 else 0)
    ++ " IN_Q=" ++ toString cur.cbInQue
    ++ " OUT_Q=" ++ toString cur.cbOutQue
    ++ " DTR=" ++ toString cur.fDtrControl
    ++ " RTS=" ++ toString cur.fRtsControl
    ++ " OUTX=" ++ toString cur.fOutX
    ++ " INX=" ++ toString cur.fInX
    ++ " ERR=0x" ++ hexUpper cur.errors

/-- `snprintf(buf, size, ...)`: the buffer holds at most `size - 1` characters,
the return value is the length of the whole text. -/
def snprintf (size : Nat) (text : String) : String × Int :=
  (text.take (size - 1), (text.length : Int))

/-- The guard of the status branch:
`(now - last_rx_time) >= SILENCE_THRESHOLD_MS && (now - last_status_time) >= STATUS_LOG_INTERVAL_MS`. -/
def debouncePass (l : ReaderLocals) (now : Nat) : Bool :=
  decide (subU64 now l.last_rx_time ≥ SILENCE_THRESHOLD_MS) &&
  decide (subU64 now l.last_status_time ≥ STATUS_LOG_INTERVAL_MS)

/-- The body of the `while` loop of `ReadThreadFunc`, entered with the run flag
seen set: the new globals, the new locals (`none` after `break`) and the trace. -/
def ReadThreadFunc_body (s : State) (l : ReaderLocals) (inp : IterInput) :
    State × Option ReaderLocals × List Event :=
  let rd := [Event.transportRead s.g_serialHandle]
  if inp.bytes_read > 0 then
    let l1 := { l with last_rx_time := inp.tick }
    match s.g_dataCallback with
    | some cb =>
      let call := Event.dataSink cb s.g_userData
        (inp.read_buffer.take inp.bytes_read.toNat) inp.bytes_read.toNat
      if inp.callbackThrows then
        (s, some l1, rd ++ [call]
          ++ callError s.g_errorCallback s.g_userData (-1) "Exception in data callback")
      else
        (s, some l1, rd ++ [call])
    | none => (s, some l1, rd)
  else if inp.bytes_read = 0 then
    let now := inp.tick
    if debouncePass l now then
      let l1 := { l with last_status_time := now }
      let h := s.g_serialHandle
      let sampling := [Event.getCommModemStatus h, Event.clearCommError h,
        Event.getCommState h]
      let cur := takeSnapshot inp.sample
      let report :=
        if changed l1.last cur then
          let silence_ms := subU64 now l1.last_rx_time
          let buf_n := snprintf 256 (statusMessage silence_ms cur)
          if buf_n.2 > 0 then callError s.g_errorCallback s.g_userData 0 buf_n.1 else []
        else []
      (s, some { l1 with last := cur }, rd ++ sampling ++ report)
    else
      (s, some l, rd)
  else
    ({ s with g_isRunning := false }, none,
      rd ++ callError s.g_errorCallback s.g_userData inp.last_error "ACE_OS::read failed")

/-- One turn of the reader thread: the loop-head test `g_isRunning.load()` and,
when it holds, the loop body.  The third component is the value `ACE_OS::read`
returned when a read was made.  A thread that finds the flag cleared, or that
breaks out of the loop, ends (`reader := none`); without a thread nothing
happens. -/
def ReadThreadFunc_step (s : State) (inp : IterInput) :
    State × List Event × Option Int :=
  match s.reader with
  | none => (s, [], none)
  | some l =>
    if s.g_isRunning then
      let (s1, l1, evs) := ReadThreadFunc_body s l inp
      ({ s1 with reader := l1 }, evs, some inp.bytes_read)
    else
      ({ s with reader := none }, [], none)

/-- One executed loop iteration: the state before, the input, the trace and the
state after. -/
structure IterStep where
  pre : State
  input : IterInput
  events : List Event
  post : State
  deriving DecidableEq, Repr

/-- The reader thread runs undisturbed on a list of inputs: the iterations it
executes, in order.  It stops when the loop ends or the inputs run out. -/
def ReadThreadFunc_run : State → List IterInput → List IterStep
  | _, [] => []
  | s, inp :: rest =>
    match (ReadThreadFunc_step s inp).2.2 with
    | none => []
    | some _ =>
      ⟨s, inp, (ReadThreadFunc_step s inp).2.1, (ReadThreadFunc_step s inp).1⟩
        :: ReadThreadFunc_run (ReadThreadFunc_step s inp).1 rest

/-- The state the reader thread leaves after `ReadThreadFunc_run`. -/
def ReadThreadFunc_final : State → List IterInput → State
  | s, [] => s
  | s, inp :: rest =>
    match (ReadThreadFunc_step s inp).2.2 with
    | none => (ReadThreadFunc_step s inp).1
    | some _ => ReadThreadFunc_final (ReadThreadFunc_step s inp).1 rest

/-! ## The exported functions -/

/-- The arguments of `SerialPort_Open`. -/
structure OpenArgs where
  portName : Option String
  baudRate : Nat
  dataCallback : Option Nat
  errorCallback : Option Nat
  userData : Nat
  deriving DecidableEq, Repr

/-- The outcomes of the system calls `SerialPort_Open` makes: `ACE_OS::open`
and its error code, the configuration calls, `_beginthreadex` and `errno`, and
the tick the new thread reads first. -/
structure OpenEnv where
  open_result : Option Nat
  open_error : Int
  config : ConfigEnv
  thread_result : Option Nat
  thread_errno : Int
  start_tick : Nat
  deriving DecidableEq, Repr

/-- The state `ReadThreadFunc` starts its loop with. -/
def ReaderLocals.start (tick : Nat) : ReaderLocals :=
  { last_rx_time := tick, last_status_time := 0, last := {} }

/-- `int SerialPort_Open(portName, baudRate, dataCallback, errorCallback, userData)`. -/
def SerialPort_Open (s : State) (a : OpenArgs) (env : OpenEnv) :
    Int × State × List Event :=
  if s.g_serialHandle ≠ none then
    (-1, s, callError s.g_errorCallback a.userData (-1) "Port already open")
  else if a.portName.isNone || a.dataCallback.isNone then
    (-2, s, [])
  else
    let s1 := { s with g_dataCallback := a.dataCallback,
                       g_errorCallback := a.errorCallback,
                       g_userData := a.userData }
    let s2 := { s1 with g_serialHandle := env.open_result }
    let ev1 := [Event.transportOpen a.portName env.open_result]
    if s2.g_serialHandle = none then
      (-3, { s2 with g_dataCallback := none, g_errorCallback := none, g_userData := 0 },
        ev1 ++ callError s2.g_errorCallback s2.g_userData env.open_error
                 "ACE_OS::open failed")
    else
      let cfg := set_serial_attributes_internal s2 s2.g_serialHandle a.baudRate env.config
      if cfg.1 ≠ 0 then
        (-4, { s2 with g_serialHandle := none, g_dataCallback := none,
                       g_errorCallback := none, g_userData := 0 },
          ev1 ++ cfg.2 ++ [Event.transportClose s2.g_serialHandle])
      else
        let s3 := { s2 with g_isRunning := true }
        let s4 := { s3 with g_threadHandle := env.thread_result }
        let ev2 := ev1 ++ cfg.2 ++ [Event.beginThread env.thread_result]
        if s4.g_threadHandle = none then
          (-5, { s4 with g_isRunning := false, g_serialHandle := none,
                         g_dataCallback := none, g_errorCallback := none,
                         g_userData := 0 },
            ev2 ++ callError s4.g_errorCallback s4.g_userData env.thread_errno
                     "_beginthreadex failed"
                ++ [Event.transportClose s4.g_serialHandle])
        else
          (0, { s4 with reader := some (ReaderLocals.start env.start_tick) }, ev2)

/-- `int SerialPort_Close()`; `close_result` is what `ACE_OS::close` returns.
Waiting for the thread ends it: with the flag cleared it leaves at the loop
head. -/
def SerialPort_Close (s : State) (close_result : Int) : Int × State × List Event :=
  if s.g_serialHandle = none then
    (0, s, [])
  else
    let s1 := { s with g_isRunning := false }
    let joined : State × List Event :=
      match s1.g_threadHandle with
      | some th => ({ s1 with g_threadHandle := none, reader := none },
                    [Event.joinThread th])
      | none => (s1, [])
    let s2 := joined.1
    (if close_result = 0 then 0 else -1,
      { s2 with g_serialHandle := none, g_dataCallback := none,
                g_errorCallback := none, g_userData := 0 },
      joined.2 ++ [Event.transportClose s2.g_serialHandle])

/-- The outcomes of `ACE_OS::write` and `ACE_OS::last_error()`. -/
structure WriteEnv where
  bytes_written : Int
  last_error : Int
  deriving DecidableEq, Repr

/-- `int SerialPort_Write(const char* data, size_t length)`; `data = none` is
the null pointer. -/
def SerialPort_Write (s : State) (data : Option (List Nat)) (length : Nat)
    (env : WriteEnv) : Int × State × List Event :=
  if s.g_serialHandle = none || !s.g_isRunning then
    (-1, s, callError s.g_errorCallback s.g_userData (-1)
              "Port not open or write attempted while closing")
  else
    match data with
    | none => (0, s, [])
    | some bytes =>
      if length = 0 then (0, s, [])
      else
        let wr := [Event.transportWrite s.g_serialHandle bytes length]
        if env.bytes_written < 0 then
          (-1, s, wr ++ callError s.g_errorCallback s.g_userData env.last_error
                          "ACE_OS::write failed")
        else
          (toInt32 env.bytes_written, s, wr)

/-- `int SerialPort_IsOpen()`. -/
def SerialPort_IsOpen (s : State) : Int :=
  if s.g_serialHandle ≠ none && s.g_isRunning then 1 else 0

/-! ## Vocabulary of the properties -/

/-- The clean Closed state of the six globals. -/
def State.isClosed (s : State) : Prop :=
  s.g_serialHandle = none ∧ s.g_threadHandle = none ∧ s.g_isRunning = false ∧
  s.g_dataCallback = none ∧ s.g_errorCallback = none ∧ s.g_userData = 0

instance (s : State) : Decidable s.isClosed := by
  unfold State.isClosed; infer_instance

/-- The handles a trace acquires with `ACE_OS::open` and does not hand to
`ACE_OS::close` afterwards. -/
def leakedHandles : List Event → List Nat
  | [] => []
  | Event.transportOpen _ (some h) :: rest =>
    if Event.transportClose (some h) ∈ rest then leakedHandles rest
    else h :: leakedHandles rest
  | _ :: rest => leakedHandles rest

/-- An operation on the serial transport (as opposed to a callback invocation
or a thread operation). -/
def Event.isTransport : Event → Bool
  | Event.transportOpen _ _ => true
  | Event.transportClose _ => true
  | Event.transportRead _ => true
  | Event.transportWrite _ _ _ => true
  | Event.getCommState _ => true
  | Event.setCommState _ _ => true
  | Event.setCommTimeouts _ _ => true
  | Event.escapeCommFunction _ _ => true
  | Event.getCommModemStatus _ => true
  | Event.clearCommError _ => true
  | _ => false

/-- An invocation of a user callback. -/
def Event.isSink : Event → Bool
  | Event.dataSink _ _ _ _ => true
  | Event.errorSink _ _ _ _ => true
  | _ => false

/-- An invocation of the error callback. -/
def Event.isErrorSink : Event → Bool
  | Event.errorSink _ _ _ _ => true
  | _ => false

/-- An invocation of the data callback. -/
def Event.isDataSink : Event → Bool
  | Event.dataSink _ _ _ _ => true
  | _ => false

/-- A status event: an invocation of the error callback with code `0`. -/
def Event.isStatus : Event → Bool
  | Event.errorSink _ _ code _ => code == 0
  | _ => false

/-! ## Sequences of calls -/

/-- What happens to the library: a call of the API thread, or one turn of the
reader thread. -/
inductive Call where
  | open (a : OpenArgs) (env : OpenEnv)
  | close (close_result : Int)
  | readerIteration (inp : IterInput)
  deriving DecidableEq, Repr

/-- A call with what it returned: the result code of `SerialPort_Open` or
`SerialPort_Close`, or the value of the read a reader iteration made. -/
structure Observation where
  call : Call
  result : Option Int
  deriving DecidableEq, Repr

/-- One call, from a state: the new state and the observation. -/
def apiStep (s : State) : Call → State × Observation
  | Call.open a env =>
    ((SerialPort_Open s a env).2.1, ⟨Call.open a env, some (SerialPort_Open s a env).1⟩)
  | Call.close r =>
    ((SerialPort_Close s r).2.1, ⟨Call.close r, some (SerialPort_Close s r).1⟩)
  | Call.readerIteration inp =>
    ((ReadThreadFunc_step s inp).1, ⟨Call.readerIteration inp, (ReadThreadFunc_step s inp).2.2⟩)

/-- A finite sequence of calls: the final state and the log. -/
def runCalls : State → List Call → State × List Observation
  | s, [] => (s, [])
  | s, c :: cs =>
    ((runCalls (apiStep s c).1 cs).1, (apiStep s c).2 :: (runCalls (apiStep s c).1 cs).2)

/-- An Open that returned 0. -/
def Observation.isOpenOk : Observation → Bool
  | ⟨Call.open _ _, some r⟩ => r == 0
  | _ => false

/-- A Close call. -/
def Observation.isClose : Observation → Bool
  | ⟨Call.close _, _⟩ => true
  | _ => false

/-- A reader iteration whose read returned an error. -/
def Observation.isReadError : Observation → Bool
  | ⟨Call.readerIteration _, some r⟩ => decide (r < 0)
  | _ => false

/-- An `ACE_OS::open` call. -/
def Event.isOpenCall : Event → Bool
  | Event.transportOpen _ _ => true
  | _ => false

/-- The globals all cleared, thread handle and reader thread as given. -/
def State.cleared (s : State) : State :=
  { s with g_serialHandle := none, g_dataCallback := none, g_errorCallback := none,
           g_userData := 0 }

/-- The observation leaves the open/closed flag alone. -/
def Observation.isNeutral (o : Observation) : Bool :=
  !o.isOpenOk && !o.isClose && !o.isReadError

/-- The callback part of a data iteration: the data sink call and, when the
callback throws, the report to the error sink. -/
def dataEvents (s : State) (inp : IterInput) : List Event :=
  match s.g_dataCallback with
  | some cb =>
    Event.dataSink cb s.g_userData (inp.read_buffer.take inp.bytes_read.toNat)
        inp.bytes_read.toNat
      :: (if inp.callbackThrows then
            callError s.g_errorCallback s.g_userData (-1) "Exception in data callback"
          else [])
  | none => []

/-- The status report of a sampled idle tick. -/
def statusReport (s : State) (l : ReaderLocals) (inp : IterInput) : List Event :=
  if changed l.last (takeSnapshot inp.sample) then
    if (snprintf 256 (statusMessage (subU64 inp.tick l.last_rx_time)
          (takeSnapshot inp.sample))).2 > 0 then
      callError s.g_errorCallback s.g_userData 0
        (snprintf 256 (statusMessage (subU64 inp.tick l.last_rx_time)
          (takeSnapshot inp.sample))).1
    else []
  else []

/-- The clock values a list of iterations reads: one `GetTickCount64()` call in
every iteration whose read did not fail. -/
def clockReadings (inputs : List IterInput) : List Nat :=
  (inputs.filter (fun x => decide (0 ≤ x.bytes_read))).map (fun x => x.tick)

/-- The time of the last read that returned bytes, or the loop start when there
was none. -/
def lastReceiveTime (start : Nat) (earlier : List IterInput) : Nat :=
  earlier.foldl (fun t x => if 0 < x.bytes_read then x.tick else t) start

/-- A status event is emitted in this iteration, at the time of its clock
reading. -/
def IterStep.emitsStatus (r : IterStep) : Bool :=
  decide (0 ≤ r.input.bytes_read) && r.events.any Event.isStatus

/-- The times of the status events of a run. -/
def statusTicks (run : List IterStep) : List Nat :=
  (run.filter IterStep.emitsStatus).map (fun r => r.input.tick)

/-- The locals after an iteration whose read did not fail. -/
def nextLocals (l : ReaderLocals) (x : IterInput) : ReaderLocals :=
  if 0 < x.bytes_read then { l with last_rx_time := x.tick }
  else if debouncePass l x.tick then
    { l with last_status_time := x.tick, last := takeSnapshot x.sample }
  else l

/-- The iteration is an idle tick that passes the debounce check. -/
def IterStep.sampled (r : IterStep) : Bool :=
  match r.pre.reader with
  | some l => decide (r.input.bytes_read = 0) && debouncePass l r.input.tick
  | none => false

/-- The callback invocations of an iteration. -/
def IterStep.sinkEvents (r : IterStep) : List Event := r.events.filter Event.isSink

/-- The whole trace of a run. -/
def runEvents : List IterStep → List Event
  | [] => []
  | r :: rs => r.events ++ runEvents rs

/-- The status event for snapshot `c` after `silence` milliseconds of silence. -/
def statusEvent (e userData silence : Nat) (c : StatusSnapshot) : Event :=
  Event.errorSink e userData 0 (snprintf 256 (statusMessage silence c)).1

/-- The reader thread is alive with locals `l`, the run flag is set and the
error callback `e` is registered. -/
def ReaderAt (s : State) (l : ReaderLocals) (e : Nat) : Prop :=
  s.reader = some l ∧ s.g_isRunning = true ∧ s.g_errorCallback = some e

/-- Example: the arguments of an Open call with both callbacks and user data 7. -/
def exampleArgs : OpenArgs := ⟨some "COM3", 115200, some 11, some 22, 7⟩

/-- Example: every system call of Open succeeds; the thread starts at tick 1000. -/
def exampleEnv : OpenEnv := ⟨some 5, 0, ⟨true, 0, true, 0, true, 0⟩, some 9, 0, 1000⟩

/-- Example: the state after the successful Open. -/
def exampleOpen : State := (SerialPort_Open State.initial exampleArgs exampleEnv).2.1

/-- Example: a status sample with the given modem status word. -/
def exampleSample (modem : Nat) : CommSample :=
  ⟨true, modem, true, 0, 0, 0, 0, 0, true, 1, 1, 1, 1⟩

/-- Example: an idle tick (0-byte read) at time `t`. -/
def idleTick (t modem : Nat) : IterInput := ⟨0, [], 0, t, false, exampleSample modem⟩

/-- Example: a read that returns the given bytes at time `t`. -/
def dataRead (t : Nat) (bytes : List Nat) (throws : Bool) : IterInput :=
  ⟨bytes.length, bytes, 0, t, throws, exampleSample 0⟩

/-- Example: a read that fails with the given error code. -/
def failedRead (code : Int) : IterInput := ⟨-1, [], code, 0, false, exampleSample 0⟩

/-- The data-sink call that delivers the bytes of a read. -/
def deliveryOf (cb userData : Nat) (x : IterInput) : Event :=
  Event.dataSink cb userData (x.read_buffer.take x.bytes_read.toNat) x.bytes_read.toNat

/-- Example: an Open call that registers no error callback. -/
def exampleArgsNoErrorSink : OpenArgs := ⟨some "COM3", 115200, some 11, none, 7⟩

/-- The text of a one-bit field. -/
def bitText (b : Bool) : String := if b then "1" else "0"

/-- The members of the snapshot fit their C types: `DWORD` for the status word,
the error mask and the queue depths, `BYTE` for the four `DCB` members. -/
def StatusSnapshot.inRange (c : StatusSnapshot) : Prop :=
  c.modemStatus < 2 ^ 32 ∧ c.errors < 2 ^ 32 ∧ c.cbInQue < 2 ^ 32 ∧ c.cbOutQue < 2 ^ 32 ∧
  c.fDtrControl < 2 ^ 8 ∧ c.fRtsControl < 2 ^ 8 ∧ c.fOutX < 2 ^ 8 ∧ c.fInX < 2 ^ 8

instance (c : StatusSnapshot) : Decidable c.inRange := by
  unfold StatusSnapshot.inRange; infer_instance

/-- The labelled fields a status message has to contain, each delimited by the
blanks around it: the silence duration, the CTS bit (bit 4 of the modem status
word) and the DSR bit (bit 5), XOFF-hold, XOFF-sent, the input and output queue
depths, the DTR and RTS modes and the software flow-control flags, in
decimal. -/
def statusFields (silence : Nat) (c : StatusSnapshot) : List String :=
  ["silence_ms=" ++ toString silence ++ " ",
   " CTS=" ++ bitText (c.modemStatus.testBit 4) ++ " ",
   " DSR=" ++ bitText (c.modemStatus.testBit 5) ++ " ",
   " XOFF_HOLD=" ++ bitText c.fXoffHold ++ " ",
   " XOFF_SENT=" ++ bitText c.fXoffSent ++ " ",
   " IN_Q=" ++ toString c.cbInQue ++ " ",
   " OUT_Q=" ++ toString c.cbOutQue ++ " ",
   " DTR=" ++ toString c.fDtrControl ++ " ",
   " RTS=" ++ toString c.fRtsControl ++ " ",
   " OUTX=" ++ toString c.fOutX ++ " ",
   " INX=" ++ toString c.fInX ++ " "]

/-- The message carries the fields of the snapshot: it starts with the
`[STATUS]` tag, every labelled field of `statusFields` occurs in it, and it
ends with the raw error mask in upper-case hexadecimal. -/
def carriesFields (message : String) (silence : Nat) (c : StatusSnapshot) : Prop :=
  "[STATUS] ".data <+: message.data ∧
  (∀ f ∈ statusFields silence c, f.data <:+: message.data) ∧
  (" ERR=0x" ++ hexUpper c.errors).data <:+ message.data

/-- The text an error-sink invocation delivers. -/
def Event.message : Event → String
  | Event.errorSink _ _ _ m => m
  | _ => ""

/-- Example: a status sample with CTS and DSR on, XOFF-hold set, queue depths
3 and 4 and error mask 0x1AF. -/
def exampleSample2 : CommSample := ⟨true, 0x30, true, 0x1AF, 3, 4, 1, 0, true, 1, 1, 1, 1⟩

/-- Example: an idle tick at time `t` that samples `exampleSample2`. -/
def idleTick2 (t : Nat) : IterInput := ⟨0, [], 0, t, false, exampleSample2⟩

/-- Example: three idle ticks that sample modem status 0x10 (CTS on). -/
def examplePhase1 : List IterInput :=
  [idleTick 2000 0x10, idleTick 3100 0x10, idleTick 6200 0x10]

/-- Example: three later idle ticks that sample `exampleSample2`. -/
def examplePhase2 : List IterInput := [idleTick2 7000, idleTick2 9300, idleTick2 12400]

/-! ## Theorems -/

theorem leakedHandles_of_no_open (tr : List Event)
    (h : ∀ e ∈ tr, e.isOpenCall = false) : leakedHandles tr = [] := by
  induction tr with
  | nil => rfl
  | cons e rest ih =>
    have hrest : ∀ x ∈ rest, x.isOpenCall = false := fun x hx => h x (List.mem_cons_of_mem _ hx)
    have he := h e (List.mem_cons_self _ _)
    cases e <;> simp_all [leakedHandles, Event.isOpenCall]

theorem callError_no_open (cb : Option Nat) (ud : Nat) (code : Int) (msg : String) :
    ∀ e ∈ callError cb ud code msg, e.isOpenCall = false := by
  cases cb <;> simp [callError, Event.isOpenCall]

theorem config_no_open (s : State) (h : Option Nat) (baud : Nat) (env : ConfigEnv) :
    ∀ e ∈ (set_serial_attributes_internal s h baud env).2, e.isOpenCall = false := by
  unfold set_serial_attributes_internal
  split_ifs <;> intro e he <;>
    simp only [List.mem_append, List.mem_cons, List.mem_singleton, List.not_mem_nil,
      or_false] at he
  all_goals
    first
    | (rcases he with he | he
       · rcases he with rfl | rfl | rfl <;> rfl
       · exact callError_no_open _ _ _ _ e he)
    | (rcases he with rfl | rfl | rfl | rfl | rfl <;> rfl)

theorem leakedHandles_open_close (name : Option String) (h : Nat) (mid : List Event)
    (hmid : ∀ e ∈ mid, e.isOpenCall = false) :
    leakedHandles (Event.transportOpen name (some h) :: (mid ++ [Event.transportClose (some h)])) = [] := by
  have hrest : ∀ e ∈ mid ++ [Event.transportClose (some h)], e.isOpenCall = false := by
    intro e he
    rcases List.mem_append.1 he with he | he
    · exact hmid e he
    · rw [List.mem_singleton.1 he]; rfl
  simp [leakedHandles, leakedHandles_of_no_open _ hrest]


theorem open_already (s : State) (a : OpenArgs) (env : OpenEnv)
    (h : s.g_serialHandle ≠ none) :
    SerialPort_Open s a env
      = (-1, s, callError s.g_errorCallback a.userData (-1) "Port already open") := by
  simp [SerialPort_Open, h]

theorem open_invalid (s : State) (a : OpenArgs) (env : OpenEnv)
    (h : s.g_serialHandle = none) (ha : (a.portName.isNone || a.dataCallback.isNone) = true) :
    SerialPort_Open s a env = (-2, s, []) := by
  unfold SerialPort_Open
  rw [if_neg (by simp [h]), if_pos ha]

theorem open_failed (s : State) (a : OpenArgs) (env : OpenEnv)
    (h : s.g_serialHandle = none) (ha : (a.portName.isNone || a.dataCallback.isNone) = false)
    (ho : env.open_result = none) :
    SerialPort_Open s a env
      = (-3, s.cleared,
          [Event.transportOpen a.portName none]
            ++ callError a.errorCallback a.userData env.open_error "ACE_OS::open failed") := by
  unfold SerialPort_Open
  rw [if_neg (by simp [h]), if_neg (by simp [ha])]
  simp [ho, State.cleared]

theorem open_config_failed (s : State) (a : OpenArgs) (env : OpenEnv) (hd : Nat)
    (h : s.g_serialHandle = none) (ha : (a.portName.isNone || a.dataCallback.isNone) = false)
    (ho : env.open_result = some hd)
    (hc : (set_serial_attributes_internal
            { s with g_dataCallback := a.dataCallback, g_errorCallback := a.errorCallback,
                     g_userData := a.userData, g_serialHandle := some hd }
            (some hd) a.baudRate env.config).1 ≠ 0) :
    SerialPort_Open s a env
      = (-4, s.cleared,
          Event.transportOpen a.portName (some hd)
            :: ((set_serial_attributes_internal
                  { s with g_dataCallback := a.dataCallback,
                           g_errorCallback := a.errorCallback,
                           g_userData := a.userData, g_serialHandle := some hd }
                  (some hd) a.baudRate env.config).2
                ++ [Event.transportClose (some hd)])) := by
  unfold SerialPort_Open
  rw [if_neg (by simp [h]), if_neg (by simp [ha])]
  simp only [ho] at hc ⊢
  rw [if_neg (by simp), if_pos hc]
  simp [State.cleared]

theorem open_spawn_failed (s : State) (a : OpenArgs) (env : OpenEnv) (hd : Nat)
    (h : s.g_serialHandle = none) (ha : (a.portName.isNone || a.dataCallback.isNone) = false)
    (ho : env.open_result = some hd)
    (hc : (set_serial_attributes_internal
            { s with g_dataCallback := a.dataCallback, g_errorCallback := a.errorCallback,
                     g_userData := a.userData, g_serialHandle := some hd }
            (some hd) a.baudRate env.config).1 = 0)
    (ht : env.thread_result = none) :
    SerialPort_Open s a env
      = (-5, { s.cleared with g_isRunning := false, g_threadHandle := none },
          Event.transportOpen a.portName (some hd)
            :: ((set_serial_attributes_internal
                  { s with g_dataCallback := a.dataCallback,
                           g_errorCallback := a.errorCallback,
                           g_userData := a.userData, g_serialHandle := some hd }
                  (some hd) a.baudRate env.config).2
                ++ Event.beginThread none
                    :: (callError a.errorCallback a.userData env.thread_errno
                          "_beginthreadex failed"
                        ++ [Event.transportClose (some hd)]))) := by
  unfold SerialPort_Open
  rw [if_neg (by simp [h]), if_neg (by simp [ha])]
  simp only [ho] at hc ⊢
  rw [if_neg (by simp), if_neg (by simp [hc])]
  simp [ht, State.cleared]

theorem open_ok (s : State) (a : OpenArgs) (env : OpenEnv) (hd th : Nat)
    (h : s.g_serialHandle = none) (ha : (a.portName.isNone || a.dataCallback.isNone) = false)
    (ho : env.open_result = some hd)
    (hc : (set_serial_attributes_internal
            { s with g_dataCallback := a.dataCallback, g_errorCallback := a.errorCallback,
                     g_userData := a.userData, g_serialHandle := some hd }
            (some hd) a.baudRate env.config).1 = 0)
    (ht : env.thread_result = some th) :
    SerialPort_Open s a env
      = (0, { g_serialHandle := some hd, g_threadHandle := some th, g_isRunning := true,
              g_dataCallback := a.dataCallback, g_errorCallback := a.errorCallback,
              g_userData := a.userData,
              reader := some (ReaderLocals.start env.start_tick) },
          Event.transportOpen a.portName (some hd)
            :: ((set_serial_attributes_internal
                  { s with g_dataCallback := a.dataCallback,
                           g_errorCallback := a.errorCallback,
                           g_userData := a.userData, g_serialHandle := some hd }
                  (some hd) a.baudRate env.config).2
                ++ [Event.beginThread (some th)])) := by
  unfold SerialPort_Open
  rw [if_neg (by simp [h]), if_neg (by simp [ha])]
  simp only [ho] at hc ⊢
  rw [if_neg (by simp), if_neg (by simp [hc])]
  simp [ht]

/-- C1: a call of `SerialPort_Open` in the Closed state that returns a non-zero
code returns one of -2, -3, -4, -5 and leaves the clean Closed state: handle
invalid, thread handle null, run flag false, callbacks and user data null, no
reader thread; and every handle the call got from `ACE_OS::open` was handed to
`ACE_OS::close` before the call returned. -/
theorem open_failure_restores_closed (s : State) (a : OpenArgs) (env : OpenEnv) (hc : s.isClosed)
    (hr : (SerialPort_Open s a env).1 ≠ 0) :
    (SerialPort_Open s a env).1 ∈ [-2, -3, -4, -5] ∧
    (SerialPort_Open s a env).2.1.isClosed ∧
    (SerialPort_Open s a env).2.1.reader = s.reader ∧
    leakedHandles (SerialPort_Open s a env).2.2 = [] := by
  obtain ⟨hh, hth, hrun, hdc, hec, hud⟩ := hc
  cases ha : (a.portName.isNone || a.dataCallback.isNone) with
  | true =>
    rw [open_invalid s a env hh ha]
    exact ⟨by simp, ⟨hh, hth, hrun, hdc, hec, hud⟩, rfl, rfl⟩
  | false =>
    cases ho : env.open_result with
    | none =>
      rw [open_failed s a env hh ha ho]
      refine ⟨by simp, ⟨rfl, hth, hrun, rfl, rfl, rfl⟩, rfl, ?_⟩
      simp only [List.singleton_append, leakedHandles]
      exact leakedHandles_of_no_open _ (callError_no_open _ _ _ _)
    | some hd =>
      by_cases hcfg : (set_serial_attributes_internal
            { s with g_dataCallback := a.dataCallback, g_errorCallback := a.errorCallback,
                     g_userData := a.userData, g_serialHandle := some hd }
            (some hd) a.baudRate env.config).1 = 0
      · cases ht : env.thread_result with
        | none =>
          rw [open_spawn_failed s a env hd hh ha ho hcfg ht]
          refine ⟨by simp, ⟨rfl, rfl, rfl, rfl, rfl, rfl⟩, rfl, ?_⟩
          have hshape : ∀ (o b c : Event) (m e : List Event),
              o :: (m ++ b :: (e ++ [c])) = o :: ((m ++ b :: e) ++ [c]) := by
            intro o b c m e; simp
          simp only [hshape]
          refine leakedHandles_open_close _ hd _ ?_
          intro e he
          rcases List.mem_append.1 he with he | he
          · exact config_no_open _ _ _ _ e he
          · rcases List.mem_cons.1 he with he | he
            · rw [he]; rfl
            · exact callError_no_open _ _ _ _ e he
        | some th =>
          rw [open_ok s a env hd th hh ha ho hcfg ht] at hr
          exact absurd rfl hr
      · rw [open_config_failed s a env hd hh ha ho hcfg]
        refine ⟨by simp, ⟨rfl, hth, hrun, rfl, rfl, rfl⟩, rfl, ?_⟩
        exact leakedHandles_open_close _ hd _ (config_no_open _ _ _ _)


/-- C1 at a concrete input: the thread cannot be started. -/
theorem open_failure_restores_closed_witness :
    (SerialPort_Open State.initial ⟨some "COM3", 115200, some 11, some 22, 7⟩
        ⟨some 5, 0, ⟨true, 0, true, 0, true, 0⟩, none, 12, 1000⟩).1 ∈ [-2, -3, -4, -5] ∧
    (SerialPort_Open State.initial ⟨some "COM3", 115200, some 11, some 22, 7⟩
        ⟨some 5, 0, ⟨true, 0, true, 0, true, 0⟩, none, 12, 1000⟩).2.1.isClosed ∧
    (SerialPort_Open State.initial ⟨some "COM3", 115200, some 11, some 22, 7⟩
        ⟨some 5, 0, ⟨true, 0, true, 0, true, 0⟩, none, 12, 1000⟩).2.1.reader
      = State.initial.reader ∧
    leakedHandles (SerialPort_Open State.initial ⟨some "COM3", 115200, some 11, some 22, 7⟩
        ⟨some 5, 0, ⟨true, 0, true, 0, true, 0⟩, none, 12, 1000⟩).2.2 = [] :=
  open_failure_restores_closed State.initial ⟨some "COM3", 115200, some 11, some 22, 7⟩
    ⟨some 5, 0, ⟨true, 0, true, 0, true, 0⟩, none, 12, 1000⟩ (by decide) (by decide)

theorem callError_no_transport (cb : Option Nat) (ud : Nat) (code : Int) (msg : String) :
    ∀ e ∈ callError cb ud code msg, e.isTransport = false := by
  cases cb <;> simp [callError, Event.isTransport]

/-- C2: `SerialPort_Open` called while the handle is valid returns -1 for every
argument tuple (absent `portName` or `dataCallback` included), leaves the six
globals and the reader thread exactly as they were, and performs no operation
on the transport. -/
theorem open_while_open_untouched (s : State) (a : OpenArgs) (env : OpenEnv)
    (h : s.g_serialHandle ≠ none) :
    (SerialPort_Open s a env).1 = -1 ∧
    (SerialPort_Open s a env).2.1 = s ∧
    ∀ e ∈ (SerialPort_Open s a env).2.2, e.isTransport = false := by
  rw [open_already s a env h]
  exact ⟨rfl, rfl, callError_no_transport _ _ _ _⟩

theorem isOpen_eq_one_iff (s : State) :
    SerialPort_IsOpen s = 1 ↔ s.g_serialHandle ≠ none ∧ s.g_isRunning = true := by
  unfold SerialPort_IsOpen
  split_ifs with h <;> simp_all

theorem open_result_cases (s : State) (a : OpenArgs) (env : OpenEnv) :
    ((SerialPort_Open s a env).1 = 0 ∧
      (SerialPort_Open s a env).2.1.g_serialHandle ≠ none ∧
      (SerialPort_Open s a env).2.1.g_isRunning = true) ∨
    ((SerialPort_Open s a env).1 ≠ 0 ∧ s.g_serialHandle ≠ none ∧
      (SerialPort_Open s a env).2.1 = s) ∨
    ((SerialPort_Open s a env).1 ≠ 0 ∧ s.g_serialHandle = none ∧
      (SerialPort_Open s a env).2.1.g_serialHandle = none) := by
  by_cases hh : s.g_serialHandle = none
  · cases ha : (a.portName.isNone || a.dataCallback.isNone) with
    | true =>
      rw [open_invalid s a env hh ha]
      exact Or.inr (Or.inr ⟨by simp, hh, hh⟩)
    | false =>
      cases ho : env.open_result with
      | none =>
        rw [open_failed s a env hh ha ho]
        exact Or.inr (Or.inr ⟨by simp, hh, rfl⟩)
      | some hd =>
        by_cases hcfg : (set_serial_attributes_internal
              { s with g_dataCallback := a.dataCallback, g_errorCallback := a.errorCallback,
                       g_userData := a.userData, g_serialHandle := some hd }
              (some hd) a.baudRate env.config).1 = 0
        · cases ht : env.thread_result with
          | none =>
            rw [open_spawn_failed s a env hd hh ha ho hcfg ht]
            exact Or.inr (Or.inr ⟨by simp, hh, rfl⟩)
          | some th =>
            rw [open_ok s a env hd th hh ha ho hcfg ht]
            exact Or.inl ⟨rfl, by simp, rfl⟩
        · rw [open_config_failed s a env hd hh ha ho hcfg]
          exact Or.inr (Or.inr ⟨by simp, hh, rfl⟩)
  · rw [open_already s a env hh]
    exact Or.inr (Or.inl ⟨by simp, hh, rfl⟩)

theorem close_handle (s : State) (r : Int) :
    (SerialPort_Close s r).2.1.g_serialHandle = none := by
  unfold SerialPort_Close
  by_cases h : s.g_serialHandle = none
  · rw [if_pos h]; exact h
  · rw [if_neg h]

theorem body_data (s : State) (l : ReaderLocals) (inp : IterInput)
    (h : 0 < inp.bytes_read) :
    ReadThreadFunc_body s l inp
      = (s, some { l with last_rx_time := inp.tick },
          Event.transportRead s.g_serialHandle :: dataEvents s inp) := by
  unfold ReadThreadFunc_body dataEvents
  simp only [gt_iff_lt, h, ↓reduceIte]
  cases s.g_dataCallback with
  | none => simp
  | some cb => cases inp.callbackThrows <;> simp

theorem body_error (s : State) (l : ReaderLocals) (inp : IterInput)
    (h : inp.bytes_read < 0) :
    ReadThreadFunc_body s l inp
      = ({ s with g_isRunning := false }, none,
          Event.transportRead s.g_serialHandle
            :: callError s.g_errorCallback s.g_userData inp.last_error
                 "ACE_OS::read failed") := by
  unfold ReadThreadFunc_body
  rw [if_neg (by omega), if_neg (by omega)]
  simp

theorem body_idle_pass (s : State) (l : ReaderLocals) (inp : IterInput)
    (h : inp.bytes_read = 0) (hp : debouncePass l inp.tick = true) :
    ReadThreadFunc_body s l inp
      = (s, some { l with last_status_time := inp.tick, last := takeSnapshot inp.sample },
          [Event.transportRead s.g_serialHandle, Event.getCommModemStatus s.g_serialHandle,
            Event.clearCommError s.g_serialHandle, Event.getCommState s.g_serialHandle]
          ++ statusReport s l inp) := by
  unfold ReadThreadFunc_body statusReport
  rw [if_neg (by omega), if_pos h]
  simp only [hp, ↓reduceIte, List.append_assoc, List.singleton_append, List.cons_append,
    List.nil_append]

theorem body_idle_skip (s : State) (l : ReaderLocals) (inp : IterInput)
    (h : inp.bytes_read = 0) (hp : debouncePass l inp.tick = false) :
    ReadThreadFunc_body s l inp = (s, some l, [Event.transportRead s.g_serialHandle]) := by
  unfold ReadThreadFunc_body
  rw [if_neg (by omega), if_pos h]
  simp [hp]

theorem body_globals (s : State) (l : ReaderLocals) (inp : IterInput) :
    (ReadThreadFunc_body s l inp).1.g_serialHandle = s.g_serialHandle ∧
    ((ReadThreadFunc_body s l inp).1.g_isRunning = true ↔
      (s.g_isRunning = true ∧ ¬ inp.bytes_read < 0)) := by
  rcases lt_trichotomy inp.bytes_read 0 with h | h | h
  · rw [body_error s l inp h]; simp [h]
  · cases hp : debouncePass l inp.tick
    · rw [body_idle_skip s l inp h hp]; simp [h]
    · rw [body_idle_pass s l inp h hp]; simp [h]
  · rw [body_data s l inp h]; simp; omega

theorem apiStep_isOpen (s : State) (c : Call) :
    SerialPort_IsOpen (apiStep s c).1 = 1 ↔
      ((apiStep s c).2.isOpenOk = true ∨
        (SerialPort_IsOpen s = 1 ∧ (apiStep s c).2.isNeutral = true)) := by
  cases c with
  | «open» a env =>
    simp only [apiStep, Observation.isNeutral, Observation.isOpenOk, Observation.isClose,
      Observation.isReadError, isOpen_eq_one_iff]
    rcases open_result_cases s a env with ⟨h0, h1, h2⟩ | ⟨h0, h1, h2⟩ | ⟨h0, h1, h2⟩
    · simp [h0, h1, h2]
    · simp [h0, h1, h2]
    · simp [h0, h1, h2]
  | close r =>
    simp [apiStep, Observation.isNeutral, Observation.isOpenOk, Observation.isClose,
      Observation.isReadError, isOpen_eq_one_iff, close_handle]
  | readerIteration inp =>
    simp only [apiStep, Observation.isNeutral, Observation.isOpenOk, Observation.isClose,
      Observation.isReadError, isOpen_eq_one_iff, ReadThreadFunc_step]
    cases hr : s.reader with
    | none => simp
    | some l =>
      cases hrun : s.g_isRunning with
      | false => simp
      | true =>
        have hb := body_globals s l inp
        simp [hb.1, hb.2, hrun]

theorem runCalls_isOpen_gen (calls : List Call) : ∀ s : State,
    (SerialPort_IsOpen (runCalls s calls).1 = 1 ↔
      ((∃ pre o post, (runCalls s calls).2 = pre ++ o :: post ∧ o.isOpenOk = true ∧
          ∀ p ∈ post, p.isNeutral = true) ∨
        (SerialPort_IsOpen s = 1 ∧ ∀ p ∈ (runCalls s calls).2, p.isNeutral = true))) := by
  induction calls with
  | nil =>
    intro s
    simp [runCalls]
  | cons c cs ih =>
    intro s
    simp only [runCalls]
    rw [ih (apiStep s c).1, apiStep_isOpen s c]
    constructor
    · rintro (⟨pre, o, post, hlog, ho, hpost⟩ | ⟨hstep | ⟨hs, hn⟩, hall⟩)
      · exact Or.inl ⟨(apiStep s c).2 :: pre, o, post, by rw [hlog]; rfl, ho, hpost⟩
      · exact Or.inl ⟨[], (apiStep s c).2, _, rfl, hstep, hall⟩
      · refine Or.inr ⟨hs, ?_⟩
        intro p hp
        rcases List.mem_cons.1 hp with rfl | hp
        · exact hn
        · exact hall p hp
    · rintro (⟨pre, o, post, hlog, ho, hpost⟩ | ⟨hs, hall⟩)
      · cases pre with
        | nil =>
          simp only [List.nil_append, List.cons.injEq] at hlog
          obtain ⟨h1, h2⟩ := hlog
          refine Or.inr ⟨Or.inl (by rw [h1]; exact ho), ?_⟩
          rw [h2]; exact hpost
        | cons x pre =>
          simp only [List.cons_append, List.cons.injEq] at hlog
          exact Or.inl ⟨pre, o, post, hlog.2, ho, hpost⟩
      · refine Or.inr ⟨Or.inr ⟨hs, hall _ (List.mem_cons_self _ _)⟩, ?_⟩
        intro p hp
        exact hall p (List.mem_cons_of_mem _ hp)

/-- C3: starting from the initial Closed state, after any finite sequence of
`SerialPort_Open` calls, `SerialPort_Close` calls and reader-loop iterations,
with arbitrary arguments and arbitrary outcomes of the system calls,
`SerialPort_IsOpen` returns 1 if and only if some Open of the sequence returned
0 and after the last such Open there was no Close call and no reader iteration
whose read returned an error; otherwise it returns 0. -/
theorem isOpen_reflects_history (calls : List Call) :
    (SerialPort_IsOpen (runCalls State.initial calls).1 = 1 ↔
      ∃ pre o post, (runCalls State.initial calls).2 = pre ++ o :: post ∧
        o.isOpenOk = true ∧
        ∀ p ∈ post, p.isOpenOk = false ∧ p.isClose = false ∧ p.isReadError = false) ∧
    (SerialPort_IsOpen (runCalls State.initial calls).1 = 1 ∨
      SerialPort_IsOpen (runCalls State.initial calls).1 = 0) := by
  constructor
  · rw [runCalls_isOpen_gen calls State.initial]
    have h0 : ¬ SerialPort_IsOpen State.initial = 1 := by decide
    simp only [h0, false_and, or_false, Observation.isNeutral, Bool.and_eq_true,
      Bool.not_eq_true', and_assoc]
  · unfold SerialPort_IsOpen
    split_ifs <;> simp

theorem subU64_eq (a b : Nat) (hb : b ≤ a) (ha : a < 2 ^ 64) : subU64 a b = a - b := by
  unfold subU64
  norm_num at ha ⊢
  omega

theorem callError_status (cb : Option Nat) (ud : Nat) (code : Int) (msg : String)
    (h : code ≠ 0) : (callError cb ud code msg).any Event.isStatus = false := by
  cases cb <;> simp [callError, Event.isStatus, h]

theorem dataEvents_status (s : State) (x : IterInput) :
    (dataEvents s x).any Event.isStatus = false := by
  unfold dataEvents
  cases s.g_dataCallback with
  | none => rfl
  | some cb =>
    cases x.callbackThrows
    · simp [Event.isStatus]
    · simp [Event.isStatus, callError_status]

theorem step_alive (s : State) (l : ReaderLocals) (x : IterInput)
    (hr : s.reader = some l) (hrun : s.g_isRunning = true) (hx : 0 ≤ x.bytes_read) :
    (ReadThreadFunc_step s x).1 = { s with reader := some (nextLocals l x) } ∧
    (ReadThreadFunc_step s x).2.2 = some x.bytes_read ∧
    ((ReadThreadFunc_step s x).2.1.any Event.isStatus = true →
      x.bytes_read = 0 ∧ debouncePass l x.tick = true) := by
  unfold ReadThreadFunc_step nextLocals
  simp only [hr, hrun, ↓reduceIte]
  rcases lt_or_eq_of_le hx with h | h
  · rw [body_data s l x h]
    simp [h, hrun, dataEvents_status, Event.isStatus]
  · have h0 : x.bytes_read = 0 := h.symm
    cases hp : debouncePass l x.tick
    · rw [body_idle_skip s l x h0 hp]
      simp [h0, hrun, Event.isStatus]
    · rw [body_idle_pass s l x h0 hp]
      simp [h0, hrun]

theorem step_error (s : State) (l : ReaderLocals) (x : IterInput)
    (hr : s.reader = some l) (hrun : s.g_isRunning = true) (hx : x.bytes_read < 0) :
    ReadThreadFunc_step s x
      = ({ s with g_isRunning := false, reader := none },
          Event.transportRead s.g_serialHandle
            :: callError s.g_errorCallback s.g_userData x.last_error "ACE_OS::read failed",
          some x.bytes_read) := by
  unfold ReadThreadFunc_step
  simp only [hr, hrun, ↓reduceIte]
  rw [body_error s l x hx]

theorem run_no_reader (s : State) (inputs : List IterInput) (hr : s.reader = none) :
    ReadThreadFunc_run s inputs = [] := by
  cases inputs with
  | nil => rfl
  | cons x xs => simp [ReadThreadFunc_run, ReadThreadFunc_step, hr]

theorem run_cons_alive (s : State) (l : ReaderLocals) (x : IterInput) (xs : List IterInput)
    (hr : s.reader = some l) (hrun : s.g_isRunning = true) :
    ReadThreadFunc_run s (x :: xs)
      = ⟨s, x, (ReadThreadFunc_step s x).2.1, (ReadThreadFunc_step s x).1⟩
          :: ReadThreadFunc_run (ReadThreadFunc_step s x).1 xs := by
  have h : (ReadThreadFunc_step s x).2.2 = some x.bytes_read := by
    unfold ReadThreadFunc_step
    simp [hr, hrun]
  simp [ReadThreadFunc_run, h]

theorem run_cons_stopped (s : State) (x : IterInput) (xs : List IterInput)
    (hrun : s.g_isRunning = false) :
    ReadThreadFunc_run s (x :: xs) = [] := by
  have h : (ReadThreadFunc_step s x).2.2 = none := by
    unfold ReadThreadFunc_step
    cases s.reader <;> simp [hrun]
  simp [ReadThreadFunc_run, h]

theorem nextLocals_rx (l : ReaderLocals) (x : IterInput) :
    (nextLocals l x).last_rx_time = if 0 < x.bytes_read then x.tick else l.last_rx_time := by
  unfold nextLocals
  split_ifs <;> rfl

theorem nextLocals_status (l : ReaderLocals) (x : IterInput) (hx : 0 ≤ x.bytes_read) :
    (nextLocals l x).last_status_time
      = if x.bytes_read = 0 ∧ debouncePass l x.tick = true then x.tick
        else l.last_status_time := by
  unfold nextLocals
  by_cases h1 : 0 < x.bytes_read
  · have h2 : ¬ x.bytes_read = 0 := by omega
    simp [h1, h2]
  · have h2 : x.bytes_read = 0 := by omega
    cases hp : debouncePass l x.tick <;> simp [h2, hp]

theorem debouncePass_bounds (l : ReaderLocals) (now : Nat) (h1 : l.last_rx_time ≤ now)
    (h2 : l.last_status_time ≤ now) (hn : now < 2 ^ 64)
    (hp : debouncePass l now = true) :
    l.last_rx_time + 1500 ≤ now ∧ l.last_status_time + 3000 ≤ now := by
  unfold debouncePass at hp
  rw [subU64_eq _ _ h1 hn, subU64_eq _ _ h2 hn] at hp
  simp [SILENCE_THRESHOLD_MS, STATUS_LOG_INTERVAL_MS] at hp
  omega

theorem clockReadings_cons (x : IterInput) (xs : List IterInput) :
    clockReadings (x :: xs)
      = if 0 ≤ x.bytes_read then x.tick :: clockReadings xs else clockReadings xs := by
  unfold clockReadings
  by_cases h : 0 ≤ x.bytes_read <;> simp [List.filter_cons, h]

theorem statusTicks_lower (inputs : List IterInput) :
    ∀ (s : State) (l : ReaderLocals) (m : Nat), s.reader = some l →
      l.last_rx_time ≤ m → l.last_status_time ≤ m →
      List.Chain (· ≤ ·) m (clockReadings inputs) →
      (∀ t ∈ clockReadings inputs, t < 2 ^ 64) →
      ∀ t ∈ statusTicks (ReadThreadFunc_run s inputs), l.last_status_time + 3000 ≤ t := by
  induction inputs with
  | nil => intro s l m _ _ _ _ _ t ht; simp [ReadThreadFunc_run, statusTicks] at ht
  | cons x xs ih =>
    intro s l m hr hrx hst hchain hbound t ht
    cases hrun : s.g_isRunning with
    | false => rw [run_cons_stopped s x xs hrun] at ht; simp [statusTicks] at ht
    | true =>
      rw [run_cons_alive s l x xs hr hrun] at ht
      by_cases hx : 0 ≤ x.bytes_read
      · obtain ⟨hs1, _, hev⟩ := step_alive s l x hr hrun hx
        rw [clockReadings_cons, if_pos hx] at hchain hbound
        obtain ⟨hmx, hchain'⟩ := List.chain_cons.1 hchain
        have hxb : x.tick < 2 ^ 64 := hbound _ (List.mem_cons_self _ _)
        have hbound' : ∀ t ∈ clockReadings xs, t < 2 ^ 64 :=
          fun t ht => hbound t (List.mem_cons_of_mem _ ht)
        have hrest := ih (ReadThreadFunc_step s x).1 (nextLocals l x) x.tick
          (by rw [hs1]) (by rw [nextLocals_rx]; split_ifs <;> omega)
          (by rw [nextLocals_status l x hx]; split_ifs <;> omega) hchain' hbound'
        rw [nextLocals_status l x hx] at hrest
        simp only [statusTicks, List.filter_cons, IterStep.emitsStatus] at ht
        by_cases hemit : (ReadThreadFunc_step s x).2.1.any Event.isStatus = true
        · obtain ⟨h0, hp⟩ := hev hemit
          have hb := debouncePass_bounds l x.tick (by omega) (by omega) hxb hp
          rw [if_pos ⟨h0, hp⟩] at hrest
          simp only [hx, hemit, decide_True, Bool.and_self, ↓reduceIte, List.map_cons,
            List.mem_cons] at ht
          rcases ht with rfl | ht
          · exact hb.2
          · have := hrest t ht
            omega
        · simp only [hemit, Bool.and_false, Bool.false_eq_true, ↓reduceIte] at ht
          have := hrest t ht
          split_ifs at this with hc
          · have hb := debouncePass_bounds l x.tick (by omega) (by omega) hxb hc.2
            omega
          · exact this
      · have hx' : x.bytes_read < 0 := by omega
        rw [step_error s l x hr hrun hx'] at ht
        simp only [statusTicks, List.filter_cons, IterStep.emitsStatus, hx, decide_False,
          Bool.false_and, Bool.false_eq_true, ↓reduceIte] at ht
        rw [run_no_reader _ xs rfl] at ht
        simp at ht

theorem statusTicks_pairwise (inputs : List IterInput) :
    ∀ (s : State) (l : ReaderLocals) (m : Nat), s.reader = some l →
      l.last_rx_time ≤ m → l.last_status_time ≤ m →
      List.Chain (· ≤ ·) m (clockReadings inputs) →
      (∀ t ∈ clockReadings inputs, t < 2 ^ 64) →
      List.Pairwise (fun a b => a + 3000 ≤ b) (statusTicks (ReadThreadFunc_run s inputs)) := by
  induction inputs with
  | nil => intro s l m _ _ _ _ _; simp [ReadThreadFunc_run, statusTicks]
  | cons x xs ih =>
    intro s l m hr hrx hst hchain hbound
    cases hrun : s.g_isRunning with
    | false => rw [run_cons_stopped s x xs hrun]; simp [statusTicks]
    | true =>
      rw [run_cons_alive s l x xs hr hrun]
      by_cases hx : 0 ≤ x.bytes_read
      · obtain ⟨hs1, _, hev⟩ := step_alive s l x hr hrun hx
        rw [clockReadings_cons, if_pos hx] at hchain hbound
        obtain ⟨hmx, hchain'⟩ := List.chain_cons.1 hchain
        have hbound' : ∀ t ∈ clockReadings xs, t < 2 ^ 64 :=
          fun t ht => hbound t (List.mem_cons_of_mem _ ht)
        have hl1 : (nextLocals l x).last_rx_time ≤ x.tick := by
          rw [nextLocals_rx]; split_ifs <;> omega
        have hl2 : (nextLocals l x).last_status_time ≤ x.tick := by
          rw [nextLocals_status l x hx]; split_ifs <;> omega
        have hrest := ih (ReadThreadFunc_step s x).1 (nextLocals l x) x.tick
          (by rw [hs1]) hl1 hl2 hchain' hbound'
        have hlow := statusTicks_lower xs (ReadThreadFunc_step s x).1 (nextLocals l x) x.tick
          (by rw [hs1]) hl1 hl2 hchain' hbound'
        simp only [statusTicks, List.filter_cons, IterStep.emitsStatus]
        by_cases hemit : (ReadThreadFunc_step s x).2.1.any Event.isStatus = true
        · obtain ⟨h0, hp⟩ := hev hemit
          simp only [hx, hemit, decide_True, Bool.and_self, ↓reduceIte, List.map_cons]
          refine List.pairwise_cons.2 ⟨?_, hrest⟩
          intro b hb
          have := hlow b hb
          rw [nextLocals_status l x hx, if_pos ⟨h0, hp⟩] at this
          exact this
        · simp only [hemit, Bool.and_false, Bool.false_eq_true, ↓reduceIte]
          exact hrest
      · have hx' : x.bytes_read < 0 := by omega
        rw [step_error s l x hr hrun hx']
        simp only [statusTicks, List.filter_cons, IterStep.emitsStatus, hx, decide_False,
          Bool.false_and, Bool.false_eq_true, ↓reduceIte]
        rw [run_no_reader _ xs rfl]
        simp

theorem status_after_silence (inputs : List IterInput) :
    ∀ (s : State) (l : ReaderLocals) (m : Nat), s.reader = some l →
      l.last_rx_time ≤ m → l.last_status_time ≤ m →
      List.Chain (· ≤ ·) m (clockReadings inputs) →
      (∀ t ∈ clockReadings inputs, t < 2 ^ 64) →
      ∀ pre r post, ReadThreadFunc_run s inputs = pre ++ r :: post →
        r.emitsStatus = true →
        lastReceiveTime l.last_rx_time (pre.map (fun p => p.input)) + 1500 ≤ r.input.tick := by
  induction inputs with
  | nil => intro s l m _ _ _ _ _ pre r post h; simp [ReadThreadFunc_run] at h
  | cons x xs ih =>
    intro s l m hr hrx hst hchain hbound pre r post hsplit hemit
    cases hrun : s.g_isRunning with
    | false => rw [run_cons_stopped s x xs hrun] at hsplit; simp at hsplit
    | true =>
      rw [run_cons_alive s l x xs hr hrun] at hsplit
      by_cases hx : 0 ≤ x.bytes_read
      · obtain ⟨hs1, _, hev⟩ := step_alive s l x hr hrun hx
        rw [clockReadings_cons, if_pos hx] at hchain hbound
        obtain ⟨hmx, hchain'⟩ := List.chain_cons.1 hchain
        have hxb : x.tick < 2 ^ 64 := hbound _ (List.mem_cons_self _ _)
        have hbound' : ∀ t ∈ clockReadings xs, t < 2 ^ 64 :=
          fun t ht => hbound t (List.mem_cons_of_mem _ ht)
        cases pre with
        | nil =>
          simp only [List.nil_append, List.cons.injEq] at hsplit
          obtain ⟨hrdef, _⟩ := hsplit
          subst hrdef
          simp only [IterStep.emitsStatus, Bool.and_eq_true] at hemit
          obtain ⟨h0, hp⟩ := hev hemit.2
          have hb := debouncePass_bounds l x.tick (by omega) (by omega) hxb hp
          simpa [lastReceiveTime] using hb.1
        | cons p pre =>
          simp only [List.cons_append, List.cons.injEq] at hsplit
          obtain ⟨hp, hsplit'⟩ := hsplit
          have hl1 : (nextLocals l x).last_rx_time ≤ x.tick := by
            rw [nextLocals_rx]; split_ifs <;> omega
          have hl2 : (nextLocals l x).last_status_time ≤ x.tick := by
            rw [nextLocals_status l x hx]; split_ifs <;> omega
          have := ih (ReadThreadFunc_step s x).1 (nextLocals l x) x.tick
            (by rw [hs1]) hl1 hl2 hchain' hbound' pre r post hsplit' hemit
          rw [nextLocals_rx] at this
          subst hp
          simpa [lastReceiveTime] using this
      · have hx' : x.bytes_read < 0 := by omega
        rw [step_error s l x hr hrun hx', run_no_reader _ xs rfl] at hsplit
        cases pre with
        | nil =>
          simp only [List.nil_append, List.cons.injEq] at hsplit
          obtain ⟨hrdef, _⟩ := hsplit
          subst hrdef
          simp [IterStep.emitsStatus, hx] at hemit
        | cons p pre =>
          simp at hsplit

/-- C4: the reader loop starts at time `start` and runs on any sequence of
iterations whose clock readings are non-decreasing 64-bit millisecond values
(an iteration whose read fails reads no clock).  Whenever an iteration emits a
status event, i.e. calls the error sink with code 0, its clock reading `now`
satisfies `now - last_rx_time >= SILENCE_THRESHOLD_MS`, where `last_rx_time`
is the clock reading of the last earlier iteration whose read returned bytes,
or `start` when there is none; and any two status events of the run are at
least `STATUS_LOG_INTERVAL_MS` apart. -/
theorem debounce_timing (s : State) (start : Nat) (inputs : List IterInput)
    (hr : s.reader = some (ReaderLocals.start start))
    (hmono : List.Chain (· ≤ ·) start (clockReadings inputs))
    (hbound : ∀ t ∈ clockReadings inputs, t < 2 ^ 64) :
    (∀ pre r post, ReadThreadFunc_run s inputs = pre ++ r :: post →
      r.emitsStatus = true →
      lastReceiveTime start (pre.map (fun p => p.input)) + SILENCE_THRESHOLD_MS
        ≤ r.input.tick) ∧
    List.Pairwise (fun a b => a + STATUS_LOG_INTERVAL_MS ≤ b)
      (statusTicks (ReadThreadFunc_run s inputs)) :=
  ⟨status_after_silence inputs s _ start hr (le_refl _) (Nat.zero_le _) hmono hbound,
   statusTicks_pairwise inputs s _ start hr (le_refl _) (Nat.zero_le _) hmono hbound⟩

theorem statusMessage_length_pos (silence : Nat) (cur : StatusSnapshot) :
    0 < (snprintf 256 (statusMessage silence cur)).2 := by
  unfold snprintf statusMessage
  simp only [String.length_append]
  have : ("[STATUS] silence_ms=" : String).length = 20 := by decide
  omega

theorem changed_iff (last cur : StatusSnapshot) (hc : cur.valid = true) :
    changed last cur = true ↔ (last.valid = false ∨ last ≠ cur) := by
  obtain ⟨v, a1, a2, a3, a4, a5, a6, a7, a8, a9, a10⟩ := last
  obtain ⟨v', b1, b2, b3, b4, b5, b6, b7, b8, b9, b10⟩ := cur
  simp only at hc
  subst hc
  cases v <;> simp [changed]
  tauto

theorem takeSnapshot_valid (c : CommSample) : (takeSnapshot c).valid = true := rfl

theorem changed_self (c : StatusSnapshot) (hc : c.valid = true) : changed c c = false := by
  cases h : changed c c
  · rfl
  · rcases (changed_iff c c hc).1 h with h' | h'
    · rw [hc] at h'; cases h'
    · exact absurd rfl h'

theorem step_idle_next (s : State) (l : ReaderLocals) (e : Nat) (x : IterInput)
    (h : ReaderAt s l e) (h0 : x.bytes_read = 0) :
    ReaderAt (ReadThreadFunc_step s x).1 (nextLocals l x) e ∧
    (ReadThreadFunc_step s x).1.g_userData = s.g_userData := by
  obtain ⟨hr, hrun, hcb⟩ := h
  obtain ⟨hs, _, _⟩ := step_alive s l x hr hrun (by omega)
  rw [hs]
  exact ⟨⟨rfl, hrun, hcb⟩, rfl⟩

theorem nextLocals_idle (l : ReaderLocals) (x : IterInput) (h0 : x.bytes_read = 0) :
    (nextLocals l x).last_rx_time = l.last_rx_time ∧
    (nextLocals l x).last
      = if debouncePass l x.tick then takeSnapshot x.sample else l.last := by
  unfold nextLocals
  rw [if_neg (by omega)]
  cases debouncePass l x.tick <;> simp

theorem step_idle_sinks (s : State) (l : ReaderLocals) (e : Nat) (x : IterInput)
    (h : ReaderAt s l e) (h0 : x.bytes_read = 0) :
    (ReadThreadFunc_step s x).2.1.filter Event.isSink
      = if debouncePass l x.tick = true ∧ changed l.last (takeSnapshot x.sample) = true then
          [statusEvent e s.g_userData (subU64 x.tick l.last_rx_time) (takeSnapshot x.sample)]
        else [] := by
  obtain ⟨hr, hrun, hcb⟩ := h
  unfold ReadThreadFunc_step
  simp only [hr, hrun, ↓reduceIte]
  cases hp : debouncePass l x.tick
  · rw [body_idle_skip s l x h0 hp]
    simp [Event.isSink]
  · rw [body_idle_pass s l x h0 hp]
    unfold statusReport
    have hpos := statusMessage_length_pos (subU64 x.tick l.last_rx_time) (takeSnapshot x.sample)
    cases hch : changed l.last (takeSnapshot x.sample)
    · simp [Event.isSink]
    · simp [Event.isSink, hpos, hcb, callError, statusEvent]

theorem run_idle_cons (s : State) (l : ReaderLocals) (e : Nat) (x : IterInput)
    (xs : List IterInput) (h : ReaderAt s l e) :
    ReadThreadFunc_run s (x :: xs)
      = ⟨s, x, (ReadThreadFunc_step s x).2.1, (ReadThreadFunc_step s x).1⟩
          :: ReadThreadFunc_run (ReadThreadFunc_step s x).1 xs ∧
    ReadThreadFunc_final s (x :: xs) = ReadThreadFunc_final (ReadThreadFunc_step s x).1 xs := by
  obtain ⟨hr, hrun, hcb⟩ := h
  refine ⟨run_cons_alive s l x xs hr hrun, ?_⟩
  have h2 : (ReadThreadFunc_step s x).2.2 = some x.bytes_read := by
    unfold ReadThreadFunc_step
    simp [hr, hrun]
  simp [ReadThreadFunc_final, h2]

theorem sampled_first (s s' : State) (l : ReaderLocals) (x : IterInput) (evs : List Event)
    (hr : s.reader = some l) (h0 : x.bytes_read = 0) :
    IterStep.sampled ⟨s, x, evs, s'⟩ = debouncePass l x.tick := by
  simp [IterStep.sampled, hr, h0]

theorem idle_quiet (e : Nat) (c : StatusSnapshot) (inputs : List IterInput) :
    ∀ (s : State) (l : ReaderLocals), ReaderAt s l e → l.last = c →
      (∀ x ∈ inputs, x.bytes_read = 0 ∧ takeSnapshot x.sample = c) →
      ∀ r ∈ ReadThreadFunc_run s inputs, r.sinkEvents = [] := by
  induction inputs with
  | nil => intro s l _ _ _ r hr; simp [ReadThreadFunc_run] at hr
  | cons x xs ih =>
    intro s l h hl hall r hr
    obtain ⟨h0, hc⟩ := hall x (List.mem_cons_self _ _)
    have hcv : c.valid = true := by rw [← hc]; rfl
    rw [(run_idle_cons s l e x xs h).1] at hr
    obtain ⟨hnext, _⟩ := step_idle_next s l e x h h0
    rcases List.mem_cons.1 hr with rfl | hr
    · simp only [IterStep.sinkEvents]
      rw [step_idle_sinks s l e x h h0, hc, hl, changed_self c hcv]
      simp
    · refine ih _ (nextLocals l x) hnext ?_ (fun y hy => hall y (List.mem_cons_of_mem _ hy)) r hr
      rw [(nextLocals_idle l x h0).2, hc, hl]
      simp

theorem idle_first (e : Nat) (c : StatusSnapshot) (inputs : List IterInput) :
    ∀ (s : State) (l : ReaderLocals), ReaderAt s l e →
      (∀ x ∈ inputs, x.bytes_read = 0 ∧ takeSnapshot x.sample = c) →
      ∀ pre r post, ReadThreadFunc_run s inputs = pre ++ r :: post →
        r.sampled = true → (∀ p ∈ pre, p.sampled = false) →
        r.sinkEvents
          = (if changed l.last c = true then
              [statusEvent e s.g_userData (subU64 r.input.tick l.last_rx_time) c]
             else []) ∧
        ∀ p ∈ pre ++ post, p.sinkEvents = [] := by
  induction inputs with
  | nil => intro s l _ _ pre r post h; simp [ReadThreadFunc_run] at h
  | cons x xs ih =>
    intro s l h hall pre r post hsplit hsam hpre
    obtain ⟨h0, hc⟩ := hall x (List.mem_cons_self _ _)
    have hall' : ∀ y ∈ xs, y.bytes_read = 0 ∧ takeSnapshot y.sample = c :=
      fun y hy => hall y (List.mem_cons_of_mem _ hy)
    rw [(run_idle_cons s l e x xs h).1] at hsplit
    obtain ⟨hnext, hud⟩ := step_idle_next s l e x h h0
    cases pre with
    | nil =>
      simp only [List.nil_append, List.cons.injEq] at hsplit
      obtain ⟨hrdef, hpost⟩ := hsplit
      subst hrdef
      rw [sampled_first s _ l x _ h.1 h0] at hsam
      constructor
      · simp only [IterStep.sinkEvents]
        rw [step_idle_sinks s l e x h h0, hc]
        simp [hsam]
      · intro p hp
        rw [List.nil_append, ← hpost] at hp
        refine idle_quiet e c xs _ (nextLocals l x) hnext ?_ hall' p hp
        rw [(nextLocals_idle l x h0).2, hc, hsam]
        simp
    | cons q pre =>
      simp only [List.cons_append, List.cons.injEq] at hsplit
      obtain ⟨hq, hsplit'⟩ := hsplit
      have hqs := hpre q (List.mem_cons_self _ _)
      rw [← hq, sampled_first s _ l x _ h.1 h0] at hqs
      have hloc := nextLocals_idle l x h0
      rw [hqs] at hloc
      have := ih _ (nextLocals l x) hnext hall' pre r post hsplit' hsam
        (fun p hp => hpre p (List.mem_cons_of_mem _ hp))
      rw [hloc.1, hud] at this
      simp only [Bool.false_eq_true, ↓reduceIte] at hloc
      rw [hloc.2] at this
      refine ⟨this.1, ?_⟩
      intro p hp
      rcases List.mem_cons.1 hp with rfl | hp
      · rw [← hq]
        simp only [IterStep.sinkEvents]
        rw [step_idle_sinks s l e x h h0]
        simp [hqs]
      · exact this.2 p hp

theorem runEvents_quiet (run : List IterStep) (h : ∀ r ∈ run, r.sinkEvents = []) :
    (runEvents run).filter Event.isSink = [] := by
  induction run with
  | nil => rfl
  | cons r rs ih =>
    simp only [runEvents, List.filter_append]
    have h1 := h r (List.mem_cons_self _ _)
    simp only [IterStep.sinkEvents] at h1
    rw [h1, ih (fun p hp => h p (List.mem_cons_of_mem _ hp))]
    rfl

theorem idle_count (e : Nat) (c : StatusSnapshot) (inputs : List IterInput) :
    ∀ (s : State) (l : ReaderLocals), ReaderAt s l e →
      (∀ x ∈ inputs, x.bytes_read = 0 ∧ takeSnapshot x.sample = c) →
      ((runEvents (ReadThreadFunc_run s inputs)).filter Event.isSink).length ≤ 1 := by
  induction inputs with
  | nil => intro s l _ _; simp [ReadThreadFunc_run, runEvents]
  | cons x xs ih =>
    intro s l h hall
    obtain ⟨h0, hc⟩ := hall x (List.mem_cons_self _ _)
    have hall' : ∀ y ∈ xs, y.bytes_read = 0 ∧ takeSnapshot y.sample = c :=
      fun y hy => hall y (List.mem_cons_of_mem _ hy)
    rw [(run_idle_cons s l e x xs h).1]
    obtain ⟨hnext, hud⟩ := step_idle_next s l e x h h0
    simp only [runEvents, List.filter_append, List.length_append]
    rw [step_idle_sinks s l e x h h0]
    cases hp : debouncePass l x.tick
    · simp only [Bool.false_eq_true, false_and, ↓reduceIte, List.length_nil, zero_add]
      exact ih _ (nextLocals l x) hnext hall'
    · have hq := idle_quiet e c xs _ (nextLocals l x) hnext
        (by rw [(nextLocals_idle l x h0).2, hc, hp]; simp) hall'
      rw [runEvents_quiet _ hq]
      split_ifs <;> simp

theorem idle_final (e : Nat) (c : StatusSnapshot) (inputs : List IterInput) :
    ∀ (s : State) (l : ReaderLocals), ReaderAt s l e →
      (∀ x ∈ inputs, x.bytes_read = 0 ∧ takeSnapshot x.sample = c) →
      ∃ l', ReaderAt (ReadThreadFunc_final s inputs) l' e ∧
        (ReadThreadFunc_final s inputs).g_userData = s.g_userData ∧
        l'.last_rx_time = l.last_rx_time ∧
        (l'.last = c ∨
          (l'.last = l.last ∧ ∀ r ∈ ReadThreadFunc_run s inputs, r.sampled = false)) := by
  induction inputs with
  | nil =>
    intro s l h _
    exact ⟨l, h, rfl, rfl, Or.inr ⟨rfl, by simp [ReadThreadFunc_run]⟩⟩
  | cons x xs ih =>
    intro s l h hall
    obtain ⟨h0, hc⟩ := hall x (List.mem_cons_self _ _)
    have hall' : ∀ y ∈ xs, y.bytes_read = 0 ∧ takeSnapshot y.sample = c :=
      fun y hy => hall y (List.mem_cons_of_mem _ hy)
    obtain ⟨hnext, hud⟩ := step_idle_next s l e x h h0
    obtain ⟨hrun, hfin⟩ := run_idle_cons s l e x xs h
    obtain ⟨l', hl', hud', hrx, hlast⟩ := ih _ (nextLocals l x) hnext hall'
    have hloc := nextLocals_idle l x h0
    refine ⟨l', by rw [hfin]; exact hl', by rw [hfin, hud', hud], by rw [hrx, hloc.1], ?_⟩
    rcases hlast with hlast | ⟨hlast, hnone⟩
    · exact Or.inl hlast
    · cases hp : debouncePass l x.tick
      · rw [hp] at hloc
        refine Or.inr ⟨by rw [hlast, hloc.2]; simp, ?_⟩
        intro r hr
        rw [hrun] at hr
        rcases List.mem_cons.1 hr with rfl | hr
        · rw [sampled_first s _ l x _ h.1 h0, hp]
        · exact hnone r hr
      · rw [hp] at hloc
        exact Or.inl (by rw [hlast, hloc.2, hc]; simp)

/-- C4 at a concrete run. -/
theorem debounce_timing_witness :
    List.Pairwise (fun a b => a + STATUS_LOG_INTERVAL_MS ≤ b)
      (statusTicks (ReadThreadFunc_run exampleOpen
        [dataRead 1100 [0x41, 0x42] false, idleTick 2000 0x10, idleTick 3100 0x10,
         idleTick 6200 0x30, idleTick 7000 0x10])) :=
  (debounce_timing exampleOpen 1000
    [dataRead 1100 [0x41, 0x42] false, idleTick 2000 0x10, idleTick 3100 0x10,
     idleTick 6200 0x30, idleTick 7000 0x10]
    (by decide) (by simp [clockReadings, dataRead, idleTick])
    (by simp [clockReadings, dataRead, idleTick])).2

/-- In the run of one data read at tick 1100 and idle ticks at 2000, 3100, 6200
and 7000, the status events are at ticks 3100 and 6200. -/
theorem debounce_timing_example : statusTicks (ReadThreadFunc_run exampleOpen
        [dataRead 1100 [0x41, 0x42] false, idleTick 2000 0x10, idleTick 3100 0x10,
         idleTick 6200 0x30, idleTick 7000 0x10]) = [3100, 6200] := by decide

theorem open_ok_iff (s : State) (a : OpenArgs) (env : OpenEnv)
    (h0 : (SerialPort_Open s a env).1 = 0) :
    ∃ hd th, s.g_serialHandle = none ∧ env.open_result = some hd ∧
      env.thread_result = some th ∧
      (SerialPort_Open s a env).2.1
        = { g_serialHandle := some hd, g_threadHandle := some th, g_isRunning := true,
            g_dataCallback := a.dataCallback, g_errorCallback := a.errorCallback,
            g_userData := a.userData,
            reader := some (ReaderLocals.start env.start_tick) } ∧
      (SerialPort_Open s a env).2.2.filter Event.isSink = [] := by
  by_cases hh : s.g_serialHandle = none
  · cases ha : (a.portName.isNone || a.dataCallback.isNone) with
    | true => rw [open_invalid s a env hh ha] at h0; simp at h0
    | false =>
      cases ho : env.open_result with
      | none => rw [open_failed s a env hh ha ho] at h0; simp at h0
      | some hd =>
        by_cases hcfg : (set_serial_attributes_internal
              { s with g_dataCallback := a.dataCallback, g_errorCallback := a.errorCallback,
                       g_userData := a.userData, g_serialHandle := some hd }
              (some hd) a.baudRate env.config).1 = 0
        · cases ht : env.thread_result with
          | none => rw [open_spawn_failed s a env hd hh ha ho hcfg ht] at h0; simp at h0
          | some th =>
            rw [open_ok s a env hd th hh ha ho hcfg ht]
            refine ⟨hd, th, hh, rfl, rfl, rfl, ?_⟩
            have hev : (set_serial_attributes_internal
              { s with g_dataCallback := a.dataCallback, g_errorCallback := a.errorCallback,
                       g_userData := a.userData, g_serialHandle := some hd }
              (some hd) a.baudRate env.config).2.filter Event.isSink = [] := by
              revert hcfg
              unfold set_serial_attributes_internal
              split_ifs <;> simp [Event.isSink]
            simp [List.filter_cons, List.filter_append, hev, Event.isSink]
        · rw [open_config_failed s a env hd hh ha ho hcfg] at h0; simp at h0
  · rw [open_already s a env hh] at h0; simp at h0

/-- C6, amended: after a successful Open with an error sink registered, when
the first read of the loop returns an error, Open itself invoked no callback,
the loop executes exactly that one iteration, its only callback invocation is
one error event carrying the transport's error code and the registered user
data, the run flag is cleared and the thread has ended, `SerialPort_IsOpen`
returns 0 without any Close, and a subsequent `SerialPort_Close` returns 0
when `ACE_OS::close` succeeds and -1 when it fails, in both cases leaving the
handle invalid, the thread handle null, and the callbacks and user data
null. -/
theorem fatal_read_error (s : State) (a : OpenArgs) (env : OpenEnv) (e : Nat)
    (x : IterInput) (rest : List IterInput) (close_result : Int)
    (hopen : (SerialPort_Open s a env).1 = 0) (hcb : a.errorCallback = some e)
    (hx : x.bytes_read < 0) :
    (SerialPort_Open s a env).2.2.filter Event.isSink = [] ∧
    (ReadThreadFunc_run (SerialPort_Open s a env).2.1 (x :: rest)).length = 1 ∧
    (runEvents (ReadThreadFunc_run (SerialPort_Open s a env).2.1 (x :: rest))).filter
        Event.isSink
      = [Event.errorSink e a.userData x.last_error "ACE_OS::read failed"] ∧
    (ReadThreadFunc_final (SerialPort_Open s a env).2.1 (x :: rest)).g_isRunning = false ∧
    (ReadThreadFunc_final (SerialPort_Open s a env).2.1 (x :: rest)).reader = none ∧
    SerialPort_IsOpen (ReadThreadFunc_final (SerialPort_Open s a env).2.1 (x :: rest)) = 0 ∧
    (SerialPort_Close (ReadThreadFunc_final (SerialPort_Open s a env).2.1 (x :: rest))
        close_result).1 = (if close_result = 0 then 0 else -1) ∧
    (SerialPort_Close (ReadThreadFunc_final (SerialPort_Open s a env).2.1 (x :: rest))
        close_result).2.1 = State.initial := by
  obtain ⟨hd, th, _, _, _, hs, hev⟩ := open_ok_iff s a env hopen
  rw [hs]
  have hstep := step_error
    { g_serialHandle := some hd, g_threadHandle := some th, g_isRunning := true,
      g_dataCallback := a.dataCallback, g_errorCallback := a.errorCallback,
      g_userData := a.userData, reader := some (ReaderLocals.start env.start_tick) }
    (ReaderLocals.start env.start_tick) x rfl rfl hx
  have hrun := run_cons_alive
    { g_serialHandle := some hd, g_threadHandle := some th, g_isRunning := true,
      g_dataCallback := a.dataCallback, g_errorCallback := a.errorCallback,
      g_userData := a.userData, reader := some (ReaderLocals.start env.start_tick) }
    (ReaderLocals.start env.start_tick) x rest rfl rfl
  have hfin : ReadThreadFunc_final
      { g_serialHandle := some hd, g_threadHandle := some th, g_isRunning := true,
        g_dataCallback := a.dataCallback, g_errorCallback := a.errorCallback,
        g_userData := a.userData, reader := some (ReaderLocals.start env.start_tick) }
      (x :: rest)
      = { g_serialHandle := some hd, g_threadHandle := some th, g_isRunning := false,
          g_dataCallback := a.dataCallback, g_errorCallback := a.errorCallback,
          g_userData := a.userData, reader := none } := by
    simp only [ReadThreadFunc_final, hstep]
    cases rest with
    | nil => rfl
    | cons y ys => simp [ReadThreadFunc_final, ReadThreadFunc_step]
  rw [hrun, hstep, run_no_reader _ rest rfl, hfin]
  refine ⟨hev, rfl, ?_, rfl, rfl, rfl, ?_, ?_⟩
  · simp [runEvents, hcb, callError, Event.isSink]
  · simp [SerialPort_Close]
  · simp [SerialPort_Close, State.initial]

/-- C6 at a concrete input. -/
theorem fatal_read_error_witness :
    (SerialPort_Open State.initial exampleArgs exampleEnv).1 = 0 ∧
    exampleArgs.errorCallback = some 22 ∧ (failedRead 5).bytes_read < 0 ∧
    (runEvents (ReadThreadFunc_run (SerialPort_Open State.initial exampleArgs exampleEnv).2.1
        [failedRead 5])).filter Event.isSink
      = [Event.errorSink 22 exampleArgs.userData (failedRead 5).last_error
          "ACE_OS::read failed"] :=
  ⟨by decide, by decide, by decide,
   (fatal_read_error State.initial exampleArgs exampleEnv 22 (failedRead 5) [] 0
      (by decide) (by decide) (by decide)).2.2.1⟩

/-- C6 as stated fails: after the fatal read error of the scenario, a Close
during which `ACE_OS::close` fails returns -1, not 0. -/
theorem fatal_read_error_close_may_fail :
    (SerialPort_Open State.initial exampleArgs exampleEnv).1 = 0 ∧
    SerialPort_IsOpen (ReadThreadFunc_final exampleOpen [failedRead 5]) = 0 ∧
    (SerialPort_Close (ReadThreadFunc_final exampleOpen [failedRead 5]) (-1)).1 = -1 := by
  decide

/-- C7, amended: while the port is open (handle valid and run flag set),
`SerialPort_Write` with a null data pointer or with length 0 returns 0, leaves
the state as it was, performs no transport operation and invokes no
callback. -/
theorem write_nothing_when_open (s : State) (data : Option (List Nat)) (length : Nat)
    (env : WriteEnv) (hh : s.g_serialHandle ≠ none) (hrun : s.g_isRunning = true)
    (hz : data = none ∨ length = 0) :
    SerialPort_Write s data length env = (0, s, []) := by
  unfold SerialPort_Write
  rw [if_neg (by simp [hh, hrun])]
  rcases hz with rfl | rfl
  · rfl
  · cases data <;> rfl

/-- C7 at a concrete input. -/
theorem write_nothing_when_open_witness :
    exampleOpen.g_serialHandle ≠ none ∧ exampleOpen.g_isRunning = true ∧
    SerialPort_Write exampleOpen (some [1, 2, 3]) 0 ⟨3, 0⟩ = (0, exampleOpen, []) :=
  ⟨by decide, by decide,
   write_nothing_when_open exampleOpen (some [1, 2, 3]) 0 ⟨3, 0⟩ (by decide) (by decide)
     (Or.inr rfl)⟩

/-- C7 as stated fails: on a closed port a zero-length write returns -1, and
after a fatal read error a write with a null data pointer returns -1 and
invokes the error sink. -/
theorem write_nothing_when_not_open :
    (SerialPort_Write State.initial (some [1, 2, 3]) 0 ⟨0, 0⟩).1 = -1 ∧
    SerialPort_Write (ReadThreadFunc_final exampleOpen [failedRead 5]) none 3 ⟨0, 0⟩
      = (-1, ReadThreadFunc_final exampleOpen [failedRead 5],
          [Event.errorSink 22 7 (-1) "Port not open or write attempted while closing"]) := by
  decide

/-- C8 fails on the code: a session is open with user data 7; a second
`SerialPort_Open` called with user data 8 invokes the registered error sink
with 8, not with the registered 7. -/
theorem open_while_open_passes_foreign_userData :
    exampleOpen.g_errorCallback = some 22 ∧ exampleOpen.g_userData = 7 ∧
    (SerialPort_Open exampleOpen ⟨some "COM4", 9600, some 33, some 44, 8⟩ exampleEnv).2.2
      = [Event.errorSink 22 8 (-1) "Port already open"] := by
  decide

/-- C9, amended: usage errors are returned as result codes and leave the state
as it was.  Open with an absent `portName` or `dataCallback` returns -2 and
invokes nothing.  Open on an open port returns -1, and Write on a port that is
not open returns -1; each of the two invokes nothing when no error sink is
registered, and otherwise invokes the registered error sink exactly once, with
code -1, and does nothing else. -/
theorem usage_errors (s : State) (a : OpenArgs) (env : OpenEnv)
    (data : Option (List Nat)) (length : Nat) (wenv : WriteEnv) :
    (s.g_serialHandle = none → (a.portName = none ∨ a.dataCallback = none) →
      SerialPort_Open s a env = (-2, s, [])) ∧
    (s.g_serialHandle ≠ none →
      (SerialPort_Open s a env).1 = -1 ∧ (SerialPort_Open s a env).2.1 = s ∧
      (s.g_errorCallback = none → (SerialPort_Open s a env).2.2 = []) ∧
      (∀ cb, s.g_errorCallback = some cb →
        ∃ ud, (SerialPort_Open s a env).2.2
          = [Event.errorSink cb ud (-1) "Port already open"])) ∧
    ((s.g_serialHandle = none ∨ s.g_isRunning = false) →
      (SerialPort_Write s data length wenv).1 = -1 ∧
      (SerialPort_Write s data length wenv).2.1 = s ∧
      (s.g_errorCallback = none → (SerialPort_Write s data length wenv).2.2 = []) ∧
      (∀ cb, s.g_errorCallback = some cb →
        (SerialPort_Write s data length wenv).2.2
          = [Event.errorSink cb s.g_userData (-1)
              "Port not open or write attempted while closing"])) := by
  refine ⟨?_, ?_, ?_⟩
  · intro hh ha
    refine open_invalid s a env hh ?_
    rcases ha with ha | ha <;> simp [ha]
  · intro hh
    rw [open_already s a env hh]
    refine ⟨rfl, rfl, ?_, ?_⟩
    · intro hn; simp [hn, callError]
    · intro cb hcb; exact ⟨a.userData, by simp [hcb, callError]⟩
  · intro hno
    have hc : (s.g_serialHandle = none || !s.g_isRunning) = true := by
      rcases hno with h | h <;> simp [h]
    unfold SerialPort_Write
    rw [if_pos hc]
    refine ⟨rfl, rfl, ?_, ?_⟩
    · intro hn; simp [hn, callError]
    · intro cb hcb; simp [hcb, callError]

/-- C9 at a concrete input: Write on the closed port. -/
theorem usage_errors_witness :
    (SerialPort_Write State.initial (some [1, 2, 3]) 3 ⟨3, 0⟩).1 = -1 ∧
    (SerialPort_Write State.initial (some [1, 2, 3]) 3 ⟨3, 0⟩).2.2 = [] :=
  ⟨((usage_errors State.initial exampleArgs exampleEnv (some [1, 2, 3]) 3 ⟨3, 0⟩).2.2
      (Or.inl rfl)).1,
   ((usage_errors State.initial exampleArgs exampleEnv (some [1, 2, 3]) 3 ⟨3, 0⟩).2.2
      (Or.inl rfl)).2.2.1 rfl⟩

/-- C9 as stated fails: Open on an open port and Write after a fatal read
error both return -1 and invoke the registered error sink. -/
theorem usage_errors_reach_error_sink :
    SerialPort_Open exampleOpen exampleArgs exampleEnv
      = (-1, exampleOpen, [Event.errorSink 22 7 (-1) "Port already open"]) ∧
    (ReadThreadFunc_final exampleOpen [failedRead 5]).g_isRunning = false ∧
    (SerialPort_Write (ReadThreadFunc_final exampleOpen [failedRead 5]) (some [1]) 1
        ⟨1, 0⟩).2.2
      = [Event.errorSink 22 7 (-1) "Port not open or write attempted while closing"] := by
  decide

theorem callError_no_dataSink (cb : Option Nat) (ud : Nat) (code : Int) (msg : String) :
    (callError cb ud code msg).filter Event.isDataSink = [] := by
  cases cb <;> simp [callError, Event.isDataSink]

theorem step_delivery (s : State) (l : ReaderLocals) (cb : Nat) (x : IterInput)
    (hr : s.reader = some l) (hrun : s.g_isRunning = true)
    (hdc : s.g_dataCallback = some cb) (hx : 0 ≤ x.bytes_read) :
    (ReadThreadFunc_step s x).2.1.filter Event.isDataSink
      = (if 0 < x.bytes_read then [deliveryOf cb s.g_userData x] else []) ∧
    (0 < x.bytes_read →
      (ReadThreadFunc_step s x).2.1.filter Event.isSink
        = deliveryOf cb s.g_userData x
            :: (if x.callbackThrows = true then
                  callError s.g_errorCallback s.g_userData (-1) "Exception in data callback"
                else [])) := by
  unfold ReadThreadFunc_step
  simp only [hr, hrun, ↓reduceIte]
  rcases lt_or_eq_of_le hx with h | h
  · rw [body_data s l x h]
    simp only [dataEvents, hdc, h, ↓reduceIte, forall_const]
    cases x.callbackThrows
    · simp [Event.isDataSink, Event.isSink, deliveryOf]
    · cases s.g_errorCallback <;>
        simp [Event.isDataSink, Event.isSink, deliveryOf, callError]
  · have h0 : x.bytes_read = 0 := h.symm
    have hn : ¬ 0 < x.bytes_read := by omega
    simp only [hn, ↓reduceIte, false_implies, and_true]
    cases hp : debouncePass l x.tick
    · rw [body_idle_skip s l x h0 hp]
      simp [Event.isDataSink]
    · rw [body_idle_pass s l x h0 hp]
      unfold statusReport
      simp only [List.filter_append]
      split_ifs <;> simp [Event.isDataSink, callError_no_dataSink]

theorem final_cons_alive (s : State) (l : ReaderLocals) (x : IterInput) (xs : List IterInput)
    (hr : s.reader = some l) (hrun : s.g_isRunning = true) :
    ReadThreadFunc_final s (x :: xs) = ReadThreadFunc_final (ReadThreadFunc_step s x).1 xs := by
  have h2 : (ReadThreadFunc_step s x).2.2 = some x.bytes_read := by
    unfold ReadThreadFunc_step
    simp [hr, hrun]
  simp [ReadThreadFunc_final, h2]

theorem delivery_run (cb : Nat) (inputs : List IterInput) :
    ∀ (s : State) (l : ReaderLocals), s.reader = some l → s.g_isRunning = true →
      s.g_dataCallback = some cb → (∀ x ∈ inputs, 0 ≤ x.bytes_read) →
      (ReadThreadFunc_run s inputs).map (fun r => r.input) = inputs ∧
      (ReadThreadFunc_final s inputs).g_isRunning = true ∧
      (ReadThreadFunc_final s inputs).reader.isSome = true ∧
      (runEvents (ReadThreadFunc_run s inputs)).filter Event.isDataSink
        = (inputs.filter (fun x => decide (0 < x.bytes_read))).map
            (deliveryOf cb s.g_userData) ∧
      (∀ r ∈ ReadThreadFunc_run s inputs, 0 < r.input.bytes_read →
        r.sinkEvents
          = deliveryOf cb s.g_userData r.input
              :: (if r.input.callbackThrows = true then
                    callError s.g_errorCallback s.g_userData (-1)
                      "Exception in data callback"
                  else [])) := by
  induction inputs with
  | nil =>
    intro s l hr hrun _ _
    simp [ReadThreadFunc_run, ReadThreadFunc_final, runEvents, hrun, hr]
  | cons x xs ih =>
    intro s l hr hrun hdc hok
    have hx := hok x (List.mem_cons_self _ _)
    obtain ⟨hs1, _, _⟩ := step_alive s l x hr hrun hx
    obtain ⟨hd1, hd2⟩ := step_delivery s l cb x hr hrun hdc hx
    have hih := ih (ReadThreadFunc_step s x).1 (nextLocals l x) (by rw [hs1]) (by rw [hs1]; exact hrun)
      (by rw [hs1]; exact hdc) (fun y hy => hok y (List.mem_cons_of_mem _ hy))
    have hud : (ReadThreadFunc_step s x).1.g_userData = s.g_userData := by rw [hs1]
    have hec : (ReadThreadFunc_step s x).1.g_errorCallback = s.g_errorCallback := by rw [hs1]
    rw [hud, hec] at hih
    obtain ⟨i1, i2, i3, i4, i5⟩ := hih
    rw [run_cons_alive s l x xs hr hrun, final_cons_alive s l x xs hr hrun]
    refine ⟨by simp [i1], i2, i3, ?_, ?_⟩
    · simp only [runEvents, List.filter_append, hd1, i4, List.filter_cons]
      by_cases hpos : 0 < x.bytes_read <;> simp [hpos]
    · intro r hmem hpos
      rcases List.mem_cons.1 hmem with rfl | hmem
      · exact hd2 hpos
      · exact i5 r hmem hpos

/-- C10, amended: the reader thread is alive with the run flag set and a data
sink registered, and runs on any sequence of read results without a read
error.  Every read result is processed, the run flag stays set and the thread
stays alive.  The data sink is invoked exactly once for each read that returned
n > 0 bytes, in read order, with the registered user data, the first n bytes
of the read buffer and length n, and never for a 0-byte read.  In an iteration
whose data sink throws, the fault is caught: the only further callback
invocation is one report to the error sink, with code -1, when an error sink
is registered, and there is none when no error sink is registered. -/
theorem data_delivery (s : State) (l : ReaderLocals) (cb : Nat) (inputs : List IterInput)
    (hr : s.reader = some l) (hrun : s.g_isRunning = true)
    (hdc : s.g_dataCallback = some cb) (hok : ∀ x ∈ inputs, 0 ≤ x.bytes_read) :
    (ReadThreadFunc_run s inputs).map (fun r => r.input) = inputs ∧
    (ReadThreadFunc_final s inputs).g_isRunning = true ∧
    (ReadThreadFunc_final s inputs).reader.isSome = true ∧
    (runEvents (ReadThreadFunc_run s inputs)).filter Event.isDataSink
      = (inputs.filter (fun x => decide (0 < x.bytes_read))).map
          (deliveryOf cb s.g_userData) ∧
    (∀ r ∈ ReadThreadFunc_run s inputs, 0 < r.input.bytes_read →
      r.sinkEvents
        = deliveryOf cb s.g_userData r.input
            :: (if r.input.callbackThrows = true then
                  callError s.g_errorCallback s.g_userData (-1)
                    "Exception in data callback"
                else [])) :=
  delivery_run cb inputs s l hr hrun hdc hok

/-- C10 at the scenario of the specification: the transport yields the bytes
0x41, 0x42 once and then times out; the data sink is called exactly once, with
those two bytes. -/
theorem data_delivery_witness :
    (runEvents (ReadThreadFunc_run exampleOpen
        [dataRead 1100 [0x41, 0x42] false, idleTick 1200 0, idleTick 1300 0,
         idleTick 5000 0])).filter Event.isDataSink
      = [Event.dataSink 11 7 [0x41, 0x42] 2] :=
  (data_delivery exampleOpen (ReaderLocals.start 1000) 11
    [dataRead 1100 [0x41, 0x42] false, idleTick 1200 0, idleTick 1300 0, idleTick 5000 0]
    (by decide) (by decide) (by decide) (by decide)).2.2.2.1.trans (by decide)

/-- C10 as stated fails: in a session opened without an error callback, a
fault of the data sink is caught but reported nowhere. -/
theorem data_sink_fault_unreported :
    (SerialPort_Open State.initial exampleArgsNoErrorSink exampleEnv).1 = 0 ∧
    runEvents (ReadThreadFunc_run
        (SerialPort_Open State.initial exampleArgsNoErrorSink exampleEnv).2.1
        [dataRead 1100 [0x41, 0x42] true])
      = [Event.transportRead (some 5), Event.dataSink 11 7 [0x41, 0x42] 2] := by
  decide

/-- C2 at a concrete input: a second Open, with absent `portName` and
`dataCallback`, on the open example session. -/
theorem open_while_open_untouched_witness :
    exampleOpen.g_serialHandle ≠ none ∧
    (SerialPort_Open exampleOpen ⟨none, 9600, none, some 44, 8⟩ exampleEnv).1 = -1 ∧
    (SerialPort_Open exampleOpen ⟨none, 9600, none, some 44, 8⟩ exampleEnv).2.1
      = exampleOpen :=
  ⟨by decide,
   (open_while_open_untouched exampleOpen ⟨none, 9600, none, some 44, 8⟩ exampleEnv
      (by decide)).1,
   (open_while_open_untouched exampleOpen ⟨none, 9600, none, some 44, 8⟩ exampleEnv
      (by decide)).2.1⟩

theorem and_two_pow_ne_zero (n k : Nat) : (n &&& 2 ^ k != 0) = n.testBit k := by
  cases h : n.testBit k
  · have : n &&& 2 ^ k = 0 := by
      apply Nat.eq_of_testBit_eq
      intro i
      rw [Nat.testBit_and, Nat.testBit_two_pow]
      by_cases hi : k = i
      · subst hi; simp [h]
      · simp [hi]
    simp [this]
  · have : (n &&& 2 ^ k).testBit k = true := by
      rw [Nat.testBit_and, h, Nat.testBit_two_pow_self]; rfl
    have hne : n &&& 2 ^ k ≠ 0 := by
      intro h0; rw [h0] at this; simp at this
    simp [hne]

theorem toString_bit (b : Bool) : toString (if b = true then 1 else 0 : Nat) = bitText b := by
  cases b <;> rfl

theorem infix_of_eq (a f b m : String) (h : m = a ++ f ++ b) : f.data <:+: m.data :=
  ⟨a.data, b.data, by rw [h]; simp [String.data_append]⟩

theorem statusMessage_text (sil : Nat) (c : StatusSnapshot) :
    statusMessage sil c
      = "[STATUS] silence_ms=" ++ toString sil
        ++ " CTS=" ++ bitText (c.modemStatus.testBit 4)
        ++ " DSR=" ++ bitText (c.modemStatus.testBit 5)
        ++ " XOFF_HOLD=" ++ bitText c.fXoffHold
        ++ " XOFF_SENT=" ++ bitText c.fXoffSent
        ++ " IN_Q=" ++ toString c.cbInQue
        ++ " OUT_Q=" ++ toString c.cbOutQue
        ++ " DTR=" ++ toString c.fDtrControl
        ++ " RTS=" ++ toString c.fRtsControl
        ++ " OUTX=" ++ toString c.fOutX
        ++ " INX=" ++ toString c.fInX
        ++ " ERR=0x" ++ hexUpper c.errors := by
  unfold statusMessage
  rw [show MS_CTS_ON = 2 ^ 4 from rfl, show MS_DSR_ON = 2 ^ 5 from rfl,
    and_two_pow_ne_zero, and_two_pow_ne_zero, toString_bit, toString_bit, toString_bit,
    toString_bit]

theorem statusMessage_fields (sil : Nat) (c : StatusSnapshot) :
    ∀ f ∈ statusFields sil c, f.data <:+: (statusMessage sil c).data := by
  intro f hf
  simp only [statusFields, List.mem_cons, List.mem_singleton, List.not_mem_nil, or_false] at hf
  rw [statusMessage_text]
  rcases hf with rfl | rfl | rfl | rfl | rfl | rfl | rfl | rfl | rfl | rfl | rfl
  · refine infix_of_eq
      ("[STATUS] ") _
      ("CTS=" ++ bitText (c.modemStatus.testBit 4) ++ " DSR=" ++ bitText (c.modemStatus.testBit 5) ++ " XOFF_HOLD=" ++ bitText c.fXoffHold ++ " XOFF_SENT=" ++ bitText c.fXoffSent ++ " IN_Q=" ++ toString c.cbInQue ++ " OUT_Q=" ++ toString c.cbOutQue ++ " DTR=" ++ toString c.fDtrControl ++ " RTS=" ++ toString c.fRtsControl ++ " OUTX=" ++ toString c.fOutX ++ " INX=" ++ toString c.fInX ++ " ERR=0x" ++ hexUpper c.errors) _ ?_
    apply String.ext
    simp only [String.data_append, List.append_assoc]
    rfl
  · refine infix_of_eq
      ("[STATUS] silence_ms=" ++ toString sil) _
      ("DSR=" ++ bitText (c.modemStatus.testBit 5) ++ " XOFF_HOLD=" ++ bitText c.fXoffHold ++ " XOFF_SENT=" ++ bitText c.fXoffSent ++ " IN_Q=" ++ toString c.cbInQue ++ " OUT_Q=" ++ toString c.cbOutQue ++ " DTR=" ++ toString c.fDtrControl ++ " RTS=" ++ toString c.fRtsControl ++ " OUTX=" ++ toString c.fOutX ++ " INX=" ++ toString c.fInX ++ " ERR=0x" ++ hexUpper c.errors) _ ?_
    apply String.ext
    simp only [String.data_append, List.append_assoc]
    rfl
  · refine infix_of_eq
      ("[STATUS] silence_ms=" ++ toString sil ++ " CTS=" ++ bitText (c.modemStatus.testBit 4)) _
      ("XOFF_HOLD=" ++ bitText c.fXoffHold ++ " XOFF_SENT=" ++ bitText c.fXoffSent ++ " IN_Q=" ++ toString c.cbInQue ++ " OUT_Q=" ++ toString c.cbOutQue ++ " DTR=" ++ toString c.fDtrControl ++ " RTS=" ++ toString c.fRtsControl ++ " OUTX=" ++ toString c.fOutX ++ " INX=" ++ toString c.fInX ++ " ERR=0x" ++ hexUpper c.errors) _ ?_
    apply String.ext
    simp only [String.data_append, List.append_assoc]
    rfl
  · refine infix_of_eq
      ("[STATUS] silence_ms=" ++ toString sil ++ " CTS=" ++ bitText (c.modemStatus.testBit 4) ++ " DSR=" ++ bitText (c.modemStatus.testBit 5)) _
      ("XOFF_SENT=" ++ bitText c.fXoffSent ++ " IN_Q=" ++ toString c.cbInQue ++ " OUT_Q=" ++ toString c.cbOutQue ++ " DTR=" ++ toString c.fDtrControl ++ " RTS=" ++ toString c.fRtsControl ++ " OUTX=" ++ toString c.fOutX ++ " INX=" ++ toString c.fInX ++ " ERR=0x" ++ hexUpper c.errors) _ ?_
    apply String.ext
    simp only [String.data_append, List.append_assoc]
    rfl
  · refine infix_of_eq
      ("[STATUS] silence_ms=" ++ toString sil ++ " CTS=" ++ bitText (c.modemStatus.testBit 4) ++ " DSR=" ++ bitText (c.modemStatus.testBit 5) ++ " XOFF_HOLD=" ++ bitText c.fXoffHold) _
      ("IN_Q=" ++ toString c.cbInQue ++ " OUT_Q=" ++ toString c.cbOutQue ++ " DTR=" ++ toString c.fDtrControl ++ " RTS=" ++ toString c.fRtsControl ++ " OUTX=" ++ toString c.fOutX ++ " INX=" ++ toString c.fInX ++ " ERR=0x" ++ hexUpper c.errors) _ ?_
    apply String.ext
    simp only [String.data_append, List.append_assoc]
    rfl
  · refine infix_of_eq
      ("[STATUS] silence_ms=" ++ toString sil ++ " CTS=" ++ bitText (c.modemStatus.testBit 4) ++ " DSR=" ++ bitText (c.modemStatus.testBit 5) ++ " XOFF_HOLD=" ++ bitText c.fXoffHold ++ " XOFF_SENT=" ++ bitText c.fXoffSent) _
      ("OUT_Q=" ++ toString c.cbOutQue ++ " DTR=" ++ toString c.fDtrControl ++ " RTS=" ++ toString c.fRtsControl ++ " OUTX=" ++ toString c.fOutX ++ " INX=" ++ toString c.fInX ++ " ERR=0x" ++ hexUpper c.errors) _ ?_
    apply String.ext
    simp only [String.data_append, List.append_assoc]
    rfl
  · refine infix_of_eq
      ("[STATUS] silence_ms=" ++ toString sil ++ " CTS=" ++ bitText (c.modemStatus.testBit 4) ++ " DSR=" ++ bitText (c.modemStatus.testBit 5) ++ " XOFF_HOLD=" ++ bitText c.fXoffHold ++ " XOFF_SENT=" ++ bitText c.fXoffSent ++ " IN_Q=" ++ toString c.cbInQue) _
      ("DTR=" ++ toString c.fDtrControl ++ " RTS=" ++ toString c.fRtsControl ++ " OUTX=" ++ toString c.fOutX ++ " INX=" ++ toString c.fInX ++ " ERR=0x" ++ hexUpper c.errors) _ ?_
    apply String.ext
    simp only [String.data_append, List.append_assoc]
    rfl
  · refine infix_of_eq
      ("[STATUS] silence_ms=" ++ toString sil ++ " CTS=" ++ bitText (c.modemStatus.testBit 4) ++ " DSR=" ++ bitText (c.modemStatus.testBit 5) ++ " XOFF_HOLD=" ++ bitText c.fXoffHold ++ " XOFF_SENT=" ++ bitText c.fXoffSent ++ " IN_Q=" ++ toString c.cbInQue ++ " OUT_Q=" ++ toString c.cbOutQue) _
      ("RTS=" ++ toString c.fRtsControl ++ " OUTX=" ++ toString c.fOutX ++ " INX=" ++ toString c.fInX ++ " ERR=0x" ++ hexUpper c.errors) _ ?_
    apply String.ext
    simp only [String.data_append, List.append_assoc]
    rfl
  · refine infix_of_eq
      ("[STATUS] silence_ms=" ++ toString sil ++ " CTS=" ++ bitText (c.modemStatus.testBit 4) ++ " DSR=" ++ bitText (c.modemStatus.testBit 5) ++ " XOFF_HOLD=" ++ bitText c.fXoffHold ++ " XOFF_SENT=" ++ bitText c.fXoffSent ++ " IN_Q=" ++ toString c.cbInQue ++ " OUT_Q=" ++ toString c.cbOutQue ++ " DTR=" ++ toString c.fDtrControl) _
      ("OUTX=" ++ toString c.fOutX ++ " INX=" ++ toString c.fInX ++ " ERR=0x" ++ hexUpper c.errors) _ ?_
    apply String.ext
    simp only [String.data_append, List.append_assoc]
    rfl
  · refine infix_of_eq
      ("[STATUS] silence_ms=" ++ toString sil ++ " CTS=" ++ bitText (c.modemStatus.testBit 4) ++ " DSR=" ++ bitText (c.modemStatus.testBit 5) ++ " XOFF_HOLD=" ++ bitText c.fXoffHold ++ " XOFF_SENT=" ++ bitText c.fXoffSent ++ " IN_Q=" ++ toString c.cbInQue ++ " OUT_Q=" ++ toString c.cbOutQue ++ " DTR=" ++ toString c.fDtrControl ++ " RTS=" ++ toString c.fRtsControl) _
      ("INX=" ++ toString c.fInX ++ " ERR=0x" ++ hexUpper c.errors) _ ?_
    apply String.ext
    simp only [String.data_append, List.append_assoc]
    rfl
  · refine infix_of_eq
      ("[STATUS] silence_ms=" ++ toString sil ++ " CTS=" ++ bitText (c.modemStatus.testBit 4) ++ " DSR=" ++ bitText (c.modemStatus.testBit 5) ++ " XOFF_HOLD=" ++ bitText c.fXoffHold ++ " XOFF_SENT=" ++ bitText c.fXoffSent ++ " IN_Q=" ++ toString c.cbInQue ++ " OUT_Q=" ++ toString c.cbOutQue ++ " DTR=" ++ toString c.fDtrControl ++ " RTS=" ++ toString c.fRtsControl ++ " OUTX=" ++ toString c.fOutX) _
      ("ERR=0x" ++ hexUpper c.errors) _ ?_
    apply String.ext
    simp only [String.data_append, List.append_assoc]
    rfl

theorem statusMessage_tag (sil : Nat) (c : StatusSnapshot) :
    "[STATUS] ".data <+: (statusMessage sil c).data := by
  rw [statusMessage_text]
  simp only [String.data_append, List.append_assoc]
  exact ⟨_, rfl⟩

theorem statusMessage_err (sil : Nat) (c : StatusSnapshot) :
    (" ERR=0x" ++ hexUpper c.errors).data <:+ (statusMessage sil c).data := by
  rw [statusMessage_text]
  simp only [String.data_append, List.append_assoc]
  refine ⟨("[STATUS] silence_ms=" ++ toString sil ++ " CTS=" ++ bitText (c.modemStatus.testBit 4) ++ " DSR=" ++ bitText (c.modemStatus.testBit 5) ++ " XOFF_HOLD=" ++ bitText c.fXoffHold ++ " XOFF_SENT=" ++ bitText c.fXoffSent ++ " IN_Q=" ++ toString c.cbInQue ++ " OUT_Q=" ++ toString c.cbOutQue ++ " DTR=" ++ toString c.fDtrControl ++ " RTS=" ++ toString c.fRtsControl ++ " OUTX=" ++ toString c.fOutX ++ " INX=" ++ toString c.fInX).data, ?_⟩
  simp only [String.data_append, List.append_assoc]

theorem toString_length_le (n e : Nat) (he : 0 < e) (h : n < 10 ^ e) :
    (toString n).length ≤ e :=
  Nat.repr_length n e he h

theorem bitText_length (b : Bool) : (bitText b).length = 1 := by
  cases b <;> rfl

theorem hexUpper_length_le (n : Nat) (h : n < 2 ^ 32) : (hexUpper n).length ≤ 8 := by
  unfold hexUpper
  simp only [String.length, List.length_map, Nat.toDigits]
  exact Nat.toDigitsCore_length 16 (by norm_num) (n + 1) n 8 (by norm_num at h ⊢; exact h)
    (by norm_num)

theorem statusMessage_length_le (sil : Nat) (c : StatusSnapshot) (hs : sil < 2 ^ 64)
    (hc : c.inRange) : (statusMessage sil c).length ≤ 255 := by
  obtain ⟨h1, h2, h3, h4, h5, h6, h7, h8⟩ := hc
  rw [statusMessage_text]
  simp only [String.length_append, bitText_length]
  have e0 := toString_length_le sil 20 (by norm_num) (by norm_num at hs ⊢; omega)
  have e1 := toString_length_le c.cbInQue 10 (by norm_num) (by norm_num at h3 ⊢; omega)
  have e2 := toString_length_le c.cbOutQue 10 (by norm_num) (by norm_num at h4 ⊢; omega)
  have e3 := toString_length_le c.fDtrControl 3 (by norm_num) (by norm_num at h5 ⊢; omega)
  have e4 := toString_length_le c.fRtsControl 3 (by norm_num) (by norm_num at h6 ⊢; omega)
  have e5 := toString_length_le c.fOutX 3 (by norm_num) (by norm_num at h7 ⊢; omega)
  have e6 := toString_length_le c.fInX 3 (by norm_num) (by norm_num at h8 ⊢; omega)
  have e7 := hexUpper_length_le c.errors h2
  have l0 : ("[STATUS] silence_ms=" : String).length = 20 := by decide
  have l1 : (" CTS=" : String).length = 5 := by decide
  have l2 : (" DSR=" : String).length = 5 := by decide
  have l3 : (" XOFF_HOLD=" : String).length = 11 := by decide
  have l4 : (" XOFF_SENT=" : String).length = 11 := by decide
  have l5 : (" IN_Q=" : String).length = 6 := by decide
  have l6 : (" OUT_Q=" : String).length = 7 := by decide
  have l7 : (" DTR=" : String).length = 5 := by decide
  have l8 : (" RTS=" : String).length = 5 := by decide
  have l9 : (" OUTX=" : String).length = 6 := by decide
  have l10 : (" INX=" : String).length = 5 := by decide
  have l11 : (" ERR=0x" : String).length = 7 := by decide
  omega

theorem take_of_short (t : String) (n : Nat) (h : t.length ≤ n) : t.take n = t := by
  rw [String.take_eq]
  have : t.data.take n = t.data := List.take_of_length_le h
  rw [this]

theorem subU64_lt (a b : Nat) : subU64 a b < 2 ^ 64 := by
  unfold subU64
  exact Nat.mod_lt _ (by norm_num)

theorem statusEvent_carries (e ud sil : Nat) (c : StatusSnapshot) (hs : sil < 2 ^ 64)
    (hc : c.inRange) : carriesFields (statusEvent e ud sil c).message sil c := by
  have hm : (statusEvent e ud sil c).message = statusMessage sil c := by
    simp only [statusEvent, Event.message, snprintf]
    exact take_of_short _ _ (statusMessage_length_le sil c hs hc)
  rw [hm]
  exact ⟨statusMessage_tag sil c, statusMessage_fields sil c, statusMessage_err sil c⟩

theorem run_executes (inputs : List IterInput) :
    ∀ (s : State) (l : ReaderLocals), s.reader = some l → s.g_isRunning = true →
      (∀ x ∈ inputs, 0 ≤ x.bytes_read) →
      (ReadThreadFunc_run s inputs).map (fun r => r.input) = inputs ∧
      (ReadThreadFunc_final s inputs).g_isRunning = true ∧
      (∃ l', (ReadThreadFunc_final s inputs).reader = some l') ∧
      (ReadThreadFunc_final s inputs).g_errorCallback = s.g_errorCallback := by
  induction inputs with
  | nil =>
    intro s l hr hrun _
    exact ⟨rfl, hrun, ⟨l, hr⟩, rfl⟩
  | cons x xs ih =>
    intro s l hr hrun hok
    have hx := hok x (List.mem_cons_self _ _)
    obtain ⟨hs1, _, _⟩ := step_alive s l x hr hrun hx
    have hih := ih (ReadThreadFunc_step s x).1 (nextLocals l x) (by rw [hs1])
      (by rw [hs1]; exact hrun) (fun y hy => hok y (List.mem_cons_of_mem _ hy))
    have hec : (ReadThreadFunc_step s x).1.g_errorCallback = s.g_errorCallback := by rw [hs1]
    rw [hec] at hih
    obtain ⟨i1, i2, i3, i4⟩ := hih
    rw [run_cons_alive s l x xs hr hrun, final_cons_alive s l x xs hr hrun]
    exact ⟨by simp [i1], i2, i3, i4⟩

theorem sampled_overwrites (inputs : List IterInput) :
    ∀ (s : State) (l : ReaderLocals), s.reader = some l → s.g_isRunning = true →
      (∀ x ∈ inputs, 0 ≤ x.bytes_read) →
      ∀ r ∈ ReadThreadFunc_run s inputs, r.sampled = true →
        ∃ l', r.post.reader = some l' ∧ l'.last = takeSnapshot r.input.sample := by
  induction inputs with
  | nil => intro s l _ _ _ r hr; simp [ReadThreadFunc_run] at hr
  | cons x xs ih =>
    intro s l hr hrun hok r hmem hsam
    have hx := hok x (List.mem_cons_self _ _)
    obtain ⟨hs1, _, _⟩ := step_alive s l x hr hrun hx
    rw [run_cons_alive s l x xs hr hrun] at hmem
    rcases List.mem_cons.1 hmem with rfl | hmem
    · simp only [IterStep.sampled, hr, Bool.and_eq_true, decide_eq_true_eq] at hsam
      refine ⟨nextLocals l x, by rw [hs1], ?_⟩
      rw [(nextLocals_idle l x hsam.1).2, hsam.2]
      simp
    · exact ih (ReadThreadFunc_step s x).1 (nextLocals l x) (by rw [hs1])
        (by rw [hs1]; exact hrun) (fun y hy => hok y (List.mem_cons_of_mem _ hy)) r hmem hsam

theorem runEvents_append (a b : List IterStep) :
    runEvents (a ++ b) = runEvents a ++ runEvents b := by
  induction a with
  | nil => rfl
  | cons r rs ih => simp [runEvents, ih]

theorem runEvents_single (pre post : List IterStep) (r : IterStep) (evs : List Event)
    (hr : r.sinkEvents = evs) (hq : ∀ p ∈ pre ++ post, p.sinkEvents = []) :
    (runEvents (pre ++ r :: post)).filter Event.isSink = evs := by
  have h1 := runEvents_quiet pre (fun p hp => hq p (List.mem_append_left _ hp))
  have h2 := runEvents_quiet post (fun p hp => hq p (List.mem_append_right _ hp))
  simp only [IterStep.sinkEvents] at hr
  rw [runEvents_append]
  simp [runEvents, List.filter_append, h1, h2, hr]

theorem idle_unsampled (e : Nat) (inputs : List IterInput) :
    ∀ (s : State) (l : ReaderLocals), ReaderAt s l e →
      (∀ x ∈ inputs, x.bytes_read = 0) →
      (∀ r ∈ ReadThreadFunc_run s inputs, r.sampled = false) →
      ∀ r ∈ ReadThreadFunc_run s inputs, r.sinkEvents = [] := by
  induction inputs with
  | nil => intro s l _ _ _ r hr; simp [ReadThreadFunc_run] at hr
  | cons x xs ih =>
    intro s l h hall hnone r hmem
    have h0 := hall x (List.mem_cons_self _ _)
    obtain ⟨hnext, _⟩ := step_idle_next s l e x h h0
    rw [(run_idle_cons s l e x xs h).1] at hnone hmem
    have hfirst := hnone _ (List.mem_cons_self _ _)
    rw [sampled_first s _ l x _ h.1 h0] at hfirst
    rcases List.mem_cons.1 hmem with rfl | hmem
    · simp only [IterStep.sinkEvents]
      rw [step_idle_sinks s l e x h h0]
      simp [hfirst]
    · exact ih _ (nextLocals l x) hnext (fun y hy => hall y (List.mem_cons_of_mem _ hy))
        (fun p hp => hnone p (List.mem_cons_of_mem _ hp)) r hmem

theorem exists_first_sampled (run : List IterStep) (h : ∃ r ∈ run, r.sampled = true) :
    ∃ pre r post, run = pre ++ r :: post ∧ r.sampled = true ∧
      ∀ p ∈ pre, p.sampled = false := by
  induction run with
  | nil => obtain ⟨r, hr, _⟩ := h; simp at hr
  | cons a rest ih =>
    cases ha : a.sampled
    · obtain ⟨r, hr, hs⟩ := h
      rcases List.mem_cons.1 hr with rfl | hr
      · rw [ha] at hs; cases hs
      · obtain ⟨pre, r', post, hsplit, hs', hpre⟩ := ih ⟨r, hr, hs⟩
        refine ⟨a :: pre, r', post, by rw [hsplit]; rfl, hs', ?_⟩
        intro p hp
        rcases List.mem_cons.1 hp with rfl | hp
        · exact ha
        · exact hpre p hp
    · exact ⟨[], a, rest, rfl, ha, by simp⟩

/-- C5: the reader thread is alive with the run flag set, and runs on idle
ticks (0-byte reads) whose sampled snapshot is `c1` throughout `phase1` and a
different value `c2` throughout `phase2`.
(1) Every tick of both phases is executed, in order, and afterwards the run
flag is still set and the thread alive.
(2) After every tick that passes the debounce check the stored previous
snapshot is the snapshot sampled at that tick, whether or not an event was
reported and whether or not an error sink is registered.
With an error sink registered:
(3) `phase1` produces at most one callback invocation;
(4) when no previous snapshot exists, the first tick of `phase1` that passes
the debounce check produces exactly the status event of `c1`, no other tick of
`phase1` invokes a callback, and that event is the whole callback trace of the
phase;
(5) when no previous snapshot existed or `phase1` sampled at least once, the
first tick of `phase2` that passes the debounce check produces exactly one
status event, no other tick of `phase2` invokes a callback, that event is the
whole callback trace of the phase, and, the members of `c2` fitting their C
types, its message carries the labelled fields of `c2`;
(6) a phase in which some tick passes the debounce check has such a first
tick, and a `phase2` in which none does invokes no callback. -/
theorem status_deduplication (s : State) (l0 : ReaderLocals) (c1 c2 : StatusSnapshot)
    (phase1 phase2 : List IterInput)
    (hr : s.reader = some l0) (hrun : s.g_isRunning = true)
    (h1 : ∀ x ∈ phase1, x.bytes_read = 0 ∧ takeSnapshot x.sample = c1)
    (h2 : ∀ x ∈ phase2, x.bytes_read = 0 ∧ takeSnapshot x.sample = c2)
    (hne : c1 ≠ c2) :
    (ReadThreadFunc_run s phase1).map (fun r => r.input) = phase1 ∧
    (ReadThreadFunc_run (ReadThreadFunc_final s phase1) phase2).map (fun r => r.input)
      = phase2 ∧
    (ReadThreadFunc_final (ReadThreadFunc_final s phase1) phase2).g_isRunning = true ∧
    (ReadThreadFunc_final (ReadThreadFunc_final s phase1) phase2).reader.isSome = true ∧
    (∀ r ∈ ReadThreadFunc_run s phase1
            ++ ReadThreadFunc_run (ReadThreadFunc_final s phase1) phase2,
      r.sampled = true →
        ∃ l, r.post.reader = some l ∧ l.last = takeSnapshot r.input.sample) ∧
    (∀ e, s.g_errorCallback = some e →
      ((runEvents (ReadThreadFunc_run s phase1)).filter Event.isSink).length ≤ 1 ∧
      (l0.last.valid = false →
        ∀ pre r post, ReadThreadFunc_run s phase1 = pre ++ r :: post →
          r.sampled = true → (∀ p ∈ pre, p.sampled = false) →
          r.sinkEvents
              = [statusEvent e s.g_userData (subU64 r.input.tick l0.last_rx_time) c1] ∧
            (∀ p ∈ pre ++ post, p.sinkEvents = []) ∧
            (runEvents (ReadThreadFunc_run s phase1)).filter Event.isSink
              = [statusEvent e s.g_userData (subU64 r.input.tick l0.last_rx_time) c1] ∧
            (c1.inRange →
              carriesFields
                (statusEvent e s.g_userData (subU64 r.input.tick l0.last_rx_time)
                  c1).message
                (subU64 r.input.tick l0.last_rx_time) c1)) ∧
      ((l0.last.valid = false ∨ ∃ r ∈ ReadThreadFunc_run s phase1, r.sampled = true) →
        ∀ pre r post,
          ReadThreadFunc_run (ReadThreadFunc_final s phase1) phase2 = pre ++ r :: post →
          r.sampled = true → (∀ p ∈ pre, p.sampled = false) →
          r.sinkEvents
              = [statusEvent e s.g_userData (subU64 r.input.tick l0.last_rx_time) c2] ∧
            (∀ p ∈ pre ++ post, p.sinkEvents = []) ∧
            (runEvents (ReadThreadFunc_run (ReadThreadFunc_final s phase1) phase2)).filter
                Event.isSink
              = [statusEvent e s.g_userData (subU64 r.input.tick l0.last_rx_time) c2] ∧
            (c2.inRange →
              carriesFields
                (statusEvent e s.g_userData (subU64 r.input.tick l0.last_rx_time)
                  c2).message
                (subU64 r.input.tick l0.last_rx_time) c2)) ∧
      ((∃ r ∈ ReadThreadFunc_run (ReadThreadFunc_final s phase1) phase2,
          r.sampled = true) →
        ∃ pre r post,
          ReadThreadFunc_run (ReadThreadFunc_final s phase1) phase2 = pre ++ r :: post ∧
          r.sampled = true ∧ ∀ p ∈ pre, p.sampled = false) ∧
      ((∀ r ∈ ReadThreadFunc_run (ReadThreadFunc_final s phase1) phase2,
          r.sampled = false) →
        (runEvents (ReadThreadFunc_run (ReadThreadFunc_final s phase1) phase2)).filter
          Event.isSink = [])) := by
  have hok1 : ∀ x ∈ phase1, 0 ≤ x.bytes_read := fun x hx => by rw [(h1 x hx).1]
  have hok2 : ∀ x ∈ phase2, 0 ≤ x.bytes_read := fun x hx => by rw [(h2 x hx).1]
  obtain ⟨hex1, hrun1, ⟨l1, hr1⟩, hec1⟩ := run_executes phase1 s l0 hr hrun hok1
  obtain ⟨hex2, hrun2, ⟨l2, hr2⟩, _⟩ :=
    run_executes phase2 (ReadThreadFunc_final s phase1) l1 hr1 hrun1 hok2
  refine ⟨hex1, hex2, hrun2, by rw [hr2]; rfl, ?_, ?_⟩
  · intro r hmem hsam
    rcases List.mem_append.1 hmem with hmem | hmem
    · exact sampled_overwrites phase1 s l0 hr hrun hok1 r hmem hsam
    · exact sampled_overwrites phase2 _ l1 hr1 hrun1 hok2 r hmem hsam
  · intro e hcb
    have hs : ReaderAt s l0 e := ⟨hr, hrun, hcb⟩
    obtain ⟨l1', hs1, hud1, hrx1, hlast1⟩ := idle_final e c1 phase1 s l0 hs h1
    refine ⟨idle_count e c1 phase1 s l0 hs h1, ?_, ?_, exists_first_sampled _, ?_⟩
    · intro hv pre r post hsplit hsam hpre
      have := idle_first e c1 phase1 s l0 hs h1 pre r post hsplit hsam hpre
      have hch : changed l0.last c1 = true := by simp [changed, hv]
      rw [if_pos hch] at this
      refine ⟨this.1, this.2, ?_, fun hc => statusEvent_carries _ _ _ _ (subU64_lt _ _) hc⟩
      rw [hsplit]
      exact runEvents_single pre post r _ this.1 this.2
    · intro hcond pre r post hsplit hsam hpre
      have := idle_first e c2 phase2 _ l1' hs1 h2 pre r post hsplit hsam hpre
      have hc2 : c2.valid = true := by
        cases phase2 with
        | nil => simp [ReadThreadFunc_run] at hsplit
        | cons x xs => rw [← (h2 x (List.mem_cons_self _ _)).2]; rfl
      have hch : changed l1'.last c2 = true := by
        rw [changed_iff _ _ hc2]
        rcases hlast1 with hl | ⟨hl, hnone⟩
        · exact Or.inr (by rw [hl]; exact hne)
        · rcases hcond with hv | ⟨r', hr', hs'⟩
          · exact Or.inl (by rw [hl]; exact hv)
          · rw [hnone r' hr'] at hs'
            cases hs'
      rw [if_pos hch, hud1, hrx1] at this
      refine ⟨this.1, this.2, ?_, fun hc => statusEvent_carries _ _ _ _ (subU64_lt _ _) hc⟩
      rw [hsplit]
      exact runEvents_single pre post r _ this.1 this.2
    · intro hnone
      exact runEvents_quiet _
        (idle_unsampled e phase2 _ l1' hs1 (fun x hx => (h2 x hx).1) hnone)

theorem split_at_one {α : Type} (L : List α) (h : L.drop 1 ≠ []) :
    L = L.take 1 ++ (L.drop 1).head h :: L.drop 2 := by
  cases L with
  | nil => simp at h
  | cons a t =>
    cases t with
    | nil => simp at h
    | cons b u => simp

theorem statusEvent_untruncated (e ud sil : Nat) (c : StatusSnapshot) (hs : sil < 2 ^ 64)
    (hc : c.inRange) :
    statusEvent e ud sil c = Event.errorSink e ud 0 (statusMessage sil c) := by
  simp only [statusEvent, snprintf]
  rw [take_of_short _ _ (statusMessage_length_le sil c hs hc)]

/-- C5 at a concrete run, from the loop start at tick 1000 of the example
session: every tick is executed; the unchanged snapshot of the first phase is
reported exactly once, at tick 3100; the changed snapshot of the second phase
is reported exactly once, at tick 9300, and the message carries its fields. -/
theorem status_deduplication_witness :
    (ReadThreadFunc_run exampleOpen examplePhase1).map (fun r => r.input) = examplePhase1 ∧
    (ReadThreadFunc_run (ReadThreadFunc_final exampleOpen examplePhase1)
        examplePhase2).map (fun r => r.input) = examplePhase2 ∧
    (runEvents (ReadThreadFunc_run exampleOpen examplePhase1)).filter Event.isSink
      = [Event.errorSink 22 7 0
          "[STATUS] silence_ms=2100 CTS=1 DSR=0 XOFF_HOLD=0 XOFF_SENT=0 IN_Q=0 OUT_Q=0 DTR=1 RTS=1 OUTX=1 INX=1 ERR=0x0"] ∧
    (runEvents (ReadThreadFunc_run (ReadThreadFunc_final exampleOpen examplePhase1)
        examplePhase2)).filter Event.isSink
      = [Event.errorSink 22 7 0
          "[STATUS] silence_ms=8300 CTS=1 DSR=1 XOFF_HOLD=1 XOFF_SENT=0 IN_Q=3 OUT_Q=4 DTR=1 RTS=1 OUTX=1 INX=1 ERR=0x1AF"] ∧
    carriesFields
      "[STATUS] silence_ms=8300 CTS=1 DSR=1 XOFF_HOLD=1 XOFF_SENT=0 IN_Q=3 OUT_Q=4 DTR=1 RTS=1 OUTX=1 INX=1 ERR=0x1AF"
      8300 (takeSnapshot exampleSample2) := by
  obtain ⟨hex1, hex2, _, _, _, hded⟩ :=
    status_deduplication exampleOpen (ReaderLocals.start 1000)
      (takeSnapshot (exampleSample 0x10)) (takeSnapshot exampleSample2)
      examplePhase1 examplePhase2 (by decide) (by decide) (by decide) (by decide) (by decide)
  obtain ⟨_, hfirst, hsecond, _, _⟩ := hded 22 (by decide)
  have e1 := hfirst (by decide)
    ((ReadThreadFunc_run exampleOpen examplePhase1).take 1)
    (((ReadThreadFunc_run exampleOpen examplePhase1).drop 1).head (by decide))
    ((ReadThreadFunc_run exampleOpen examplePhase1).drop 2)
    (split_at_one _ _) (by decide) (by decide)
  have e2 := hsecond (Or.inl (by decide))
    ((ReadThreadFunc_run (ReadThreadFunc_final exampleOpen examplePhase1)
        examplePhase2).take 1)
    (((ReadThreadFunc_run (ReadThreadFunc_final exampleOpen examplePhase1)
        examplePhase2).drop 1).head (by decide))
    ((ReadThreadFunc_run (ReadThreadFunc_final exampleOpen examplePhase1)
        examplePhase2).drop 2)
    (split_at_one _ _) (by decide) (by decide)
  have t1 : subU64 (((ReadThreadFunc_run exampleOpen examplePhase1).drop 1).head
      (by decide)).input.tick (ReaderLocals.start 1000).last_rx_time = 2100 := by decide
  have t2 : subU64 (((ReadThreadFunc_run (ReadThreadFunc_final exampleOpen examplePhase1)
      examplePhase2).drop 1).head (by decide)).input.tick
      (ReaderLocals.start 1000).last_rx_time = 8300 := by decide
  have ud : exampleOpen.g_userData = 7 := by decide
  have m1 : statusMessage 2100 (takeSnapshot (exampleSample 0x10))
      = "[STATUS] silence_ms=2100 CTS=1 DSR=0 XOFF_HOLD=0 XOFF_SENT=0 IN_Q=0 OUT_Q=0 DTR=1 RTS=1 OUTX=1 INX=1 ERR=0x0" := by
    decide
  have m2 : statusMessage 8300 (takeSnapshot exampleSample2)
      = "[STATUS] silence_ms=8300 CTS=1 DSR=1 XOFF_HOLD=1 XOFF_SENT=0 IN_Q=3 OUT_Q=4 DTR=1 RTS=1 OUTX=1 INX=1 ERR=0x1AF" := by
    decide
  have r1 := e1.2.2.1
  have r2 := e2.2.2.1
  have k2 := e2.2.2.2 (by decide)
  rw [t1, ud, statusEvent_untruncated _ _ _ _ (by norm_num) (by decide), m1] at r1
  rw [t2, ud, statusEvent_untruncated _ _ _ _ (by norm_num) (by decide), m2] at r2
  rw [t2, ud, statusEvent_untruncated _ _ _ _ (by norm_num) (by decide), m2] at k2
  exact ⟨hex1, hex2, r1, r2, k2⟩

end SerialPortLib
